import Mathlib

/-!
# create_test_accounts.go

A shallow embedding of `main` of `create_test_accounts.go` and of the two
account-provisioning blocks it contains.

The script only sequences calls into packages that live outside the file
(`config`, `db`, `user`, `models`).  Those packages are a parameter of the
model: a record `Collab σ` of state-passing functions over an arbitrary
external state `σ` (the database, the configuration, ...).  Every quantifier
"for every combination of collaborator results" below is a quantifier over
`σ`, over `Collab σ` and over the initial state.

What the script itself does is modelled in full:

* the order of the calls and of the printed / logged lines, as a trace of
  `Event`s (each call event records its arguments and the result returned);
* Go pointers `*user.User` as `Option User` (`none` is `nil`); reading the
  field `ID` through a nil pointer is a run-time panic;
* `log.Fatalf` = log the line, then `os.Exit(1)`: the process ends at once and
  deferred calls are NOT run;
* a run-time panic unwinds `main`, runs the deferred calls, and ends the
  process with status 2;
* `defer` = run the deferred call when the rest of `main` returns or panics.

Assumption of the model: every collaborator call returns (no collaborator
panics or exits the process on its own).  The model is of `main` as written;
the import of `os` at line 17, which `main` never uses, is not part of it.  The time stamp that `log` puts in
front of a line is not modelled.
-/

namespace CreateTestAccounts

/-! ## Data -/

/-- A Go `error` value that is not nil; `text` is what `%v` prints for it. -/
structure GoError where
  text : String
deriving DecidableEq, Repr

/-- Modelled from the spec: the type `user.User` is declared outside this
file; only the fields that `main` sets (`Username`, `Email`, `Password`) or
reads (`ID`) are kept. -/
structure User where
  ID : Int
  Username : String
  Email : String
  Password : String
deriving DecidableEq, Repr

/-- A value of Go type `*user.User`; `none` is the nil pointer. -/
abbrev UserPtr := Option User

/-- Handle of the `*xorm.Engine` returned by `db.CreateDBEngine`. -/
abbrev Engine := Nat

/-- Handle of the `*xorm.Session` returned by `db.NewSession`. -/
abbrev Session := Nat

/-- Everything a run does that can be observed, in the order it happens. -/
inductive Event where
  /-- Text written to standard output by `fmt.Println` / `fmt.Printf`. -/
  | stdout (text : String)
  /-- A line written through package `log` (`log.Printf`, `log.Fatalf`). -/
  | logged (text : String)
  /-- The script reads field `ID` through the pointer `p`. -/
  | readID (p : UserPtr)
  | initConfig
  | initDefaultConfig
  | createDBEngine (engine : Engine) (err : Option GoError)
  | engineClose (engine : Engine)
  | sync2 (engine : Engine) (err : Option GoError)
  | newSession (session : Session)
  | sessionClose (session : Session)
  | createUser (session : Session) (arg : User) (account : UserPtr) (err : Option GoError)
  | getUserByUsername (session : Session) (username : String) (account : UserPtr)
      (err : Option GoError)
  | createNewProjectForUser (session : Session) (owner : UserPtr) (err : Option GoError)
  | commit (session : Session) (err : Option GoError)
  /-- `session.Rollback()`: part of the session API; the script never calls it. -/
  | rollback (session : Session)
deriving DecidableEq, Repr

/-- The packages the script calls, as state-passing functions over an
external state `σ`.  Each function returns what the Go function returns
together with the new external state. -/
structure Collab (σ : Type) where
  initConfig : σ → σ
  initDefaultConfig : σ → σ
  createDBEngine : σ → (Engine × Option GoError) × σ
  engineClose : Engine → σ → σ
  sync2 : Engine → σ → Option GoError × σ
  newSession : σ → Session × σ
  sessionClose : Session → σ → σ
  createUser : Session → User → σ → (UserPtr × Option GoError) × σ
  getUserByUsername : Session → String → σ → (UserPtr × Option GoError) × σ
  createNewProjectForUser : Session → UserPtr → σ → Option GoError × σ
  commit : Session → σ → Option GoError × σ

/-- The external state together with the trace of the run so far. -/
structure World (σ : Type) where
  ext : σ
  trace : List Event

/-- How a piece of the script ends. -/
inductive Res (σ : Type) (α : Type) where
  /-- Normal completion with a value: the run goes on with what follows. -/
  | ok (a : α) (w : World σ)
  /-- The process ended through `os.Exit(code)`; deferred calls are skipped. -/
  | halted (code : Nat) (w : World σ)
  /-- A run-time panic is unwinding the stack. -/
  | crashed (w : World σ)

/-- A piece of the script. -/
def Run (σ : Type) (α : Type) : Type := World σ → Res σ α

/-- Sequencing: what follows runs only after normal completion. -/
def Run.bind {σ α β : Type} (m : Run σ α) (f : α → Run σ β) : Run σ β := fun w =>
  match m w with
  | .ok a w1 => f a w1
  | .halted code w1 => .halted code w1
  | .crashed w1 => .crashed w1

instance instMonadRun {σ : Type} : Monad (Run σ) where
  pure a := fun w => .ok a w
  bind := Run.bind

/-- The world a piece of the script ends in. -/
def Res.world {σ α : Type} : Res σ α → World σ
  | .ok _ w => w
  | .halted _ w => w
  | .crashed w => w

/-- The exit status of the process when `main` ends this way: 0 on return,
the argument of `os.Exit`, 2 after an unrecovered panic. -/
def Res.status {σ α : Type} : Res σ α → Nat
  | .ok _ _ => 0
  | .halted code _ => code
  | .crashed _ => 2

/-! ## Primitive steps -/

/-- Append one event to the trace. -/
def emit {σ : Type} (e : Event) : Run σ Unit := fun w =>
  .ok () { w with trace := w.trace ++ [e] }

/-- Go `fmt.Println(s)`. -/
def println {σ : Type} (s : String) : Run σ Unit := emit (.stdout (s ++ "\n"))

/-- Go `fmt.Printf` with the format already applied. -/
def printf {σ : Type} (s : String) : Run σ Unit := emit (.stdout s)

/-- Go `log.Printf` with the format already applied. -/
def logPrintf {σ : Type} (s : String) : Run σ Unit := emit (.logged s)

/-- Go `log.Fatalf`: the line is logged, then `os.Exit(1)`. -/
def logFatalf {σ α : Type} (s : String) : Run σ α := fun w =>
  .halted 1 { w with trace := w.trace ++ [.logged s] }

/-- Reading the field `ID` through `p`: a panic when `p` is nil, else the
struct pointed to (whose `ID` the caller prints). -/
def readID {σ : Type} (p : UserPtr) : Run σ User := fun w =>
  match p with
  | some u => .ok u { w with trace := w.trace ++ [.readID p] }
  | none => .crashed { w with trace := w.trace ++ [.readID p] }

/-- Go `defer d()` followed by `body`: `d` runs when `body` returns or panics,
not when the process ends through `os.Exit`. -/
def withDefer {σ α : Type} (d : Run σ Unit) (body : Run σ α) : Run σ α := fun w =>
  match body w with
  | .ok a w1 => .ok a (d w1).world
  | .halted code w1 => .halted code w1
  | .crashed w1 => .crashed (d w1).world

/-! ## Calls into the collaborators -/

def callInitConfig {σ : Type} (c : Collab σ) : Run σ Unit := fun w =>
  .ok () ⟨c.initConfig w.ext, w.trace ++ [.initConfig]⟩

def callInitDefaultConfig {σ : Type} (c : Collab σ) : Run σ Unit := fun w =>
  .ok () ⟨c.initDefaultConfig w.ext, w.trace ++ [.initDefaultConfig]⟩

def callCreateDBEngine {σ : Type} (c : Collab σ) : Run σ (Engine × Option GoError) := fun w =>
  .ok (c.createDBEngine w.ext).1
    ⟨(c.createDBEngine w.ext).2,
     w.trace ++ [.createDBEngine (c.createDBEngine w.ext).1.1 (c.createDBEngine w.ext).1.2]⟩

def callEngineClose {σ : Type} (c : Collab σ) (engine : Engine) : Run σ Unit := fun w =>
  .ok () ⟨c.engineClose engine w.ext, w.trace ++ [.engineClose engine]⟩

def callSync2 {σ : Type} (c : Collab σ) (engine : Engine) : Run σ (Option GoError) := fun w =>
  .ok (c.sync2 engine w.ext).1
    ⟨(c.sync2 engine w.ext).2, w.trace ++ [.sync2 engine (c.sync2 engine w.ext).1]⟩

def callNewSession {σ : Type} (c : Collab σ) : Run σ Session := fun w =>
  .ok (c.newSession w.ext).1
    ⟨(c.newSession w.ext).2, w.trace ++ [.newSession (c.newSession w.ext).1]⟩

def callSessionClose {σ : Type} (c : Collab σ) (session : Session) : Run σ Unit := fun w =>
  .ok () ⟨c.sessionClose session w.ext, w.trace ++ [.sessionClose session]⟩

def callCreateUser {σ : Type} (c : Collab σ) (session : Session) (u : User) :
    Run σ (UserPtr × Option GoError) := fun w =>
  .ok (c.createUser session u w.ext).1
    ⟨(c.createUser session u w.ext).2,
     w.trace ++ [.createUser session u (c.createUser session u w.ext).1.1
        (c.createUser session u w.ext).1.2]⟩

def callGetUserByUsername {σ : Type} (c : Collab σ) (session : Session) (name : String) :
    Run σ (UserPtr × Option GoError) := fun w =>
  .ok (c.getUserByUsername session name w.ext).1
    ⟨(c.getUserByUsername session name w.ext).2,
     w.trace ++ [.getUserByUsername session name (c.getUserByUsername session name w.ext).1.1
        (c.getUserByUsername session name w.ext).1.2]⟩

def callCreateNewProjectForUser {σ : Type} (c : Collab σ) (session : Session) (owner : UserPtr) :
    Run σ (Option GoError) := fun w =>
  .ok (c.createNewProjectForUser session owner w.ext).1
    ⟨(c.createNewProjectForUser session owner w.ext).2,
     w.trace ++ [.createNewProjectForUser session owner
        (c.createNewProjectForUser session owner w.ext).1]⟩

def callCommit {σ : Type} (c : Collab σ) (session : Session) : Run σ (Option GoError) := fun w =>
  .ok (c.commit session w.ext).1
    ⟨(c.commit session w.ext).2, w.trace ++ [.commit session (c.commit session w.ext).1]⟩

/-! ## The provisioning block (lines 49-74 and 76-101) -/

/-- The two provisioning blocks of `main` are the same code up to the account
literal and the texts; a `Block` holds what differs. -/
structure Block where
  /-- The line printed first (lines 50, 77). -/
  announce : String
  /-- The `&user.User` literal passed to `user.CreateUser` (lines 51-55, 78-82). -/
  spec : User
  /-- The string literal passed to `user.GetUserByUsername` (lines 59, 86). -/
  lookup : String
  /-- The "already exists" line for an ID (lines 61, 88). -/
  existsText : Int → String
  /-- The text in front of the creation error in the warning (lines 64, 91). -/
  warnUser : String
  /-- The "created successfully" line for an ID (lines 67, 94). -/
  createdText : Int → String
  /-- The text in front of the project error in the warning (lines 72, 99). -/
  warnProject : String

/-- Lines 51-55. -/
def adminUser : User :=
  { ID := 0, Username := "admin", Email := "admin@test.local", Password := "Admin@123" }

/-- Lines 78-82. -/
def normalUser : User :=
  { ID := 0, Username := "testuser", Email := "testuser@test.local", Password := "User@123" }

/-- The admin block, lines 49-74. -/
def adminBlock : Block where
  announce := "Creating admin account..."
  spec := adminUser
  lookup := "admin"
  existsText := fun id => "Admin user 'admin' already exists (ID: " ++ toString id ++ ")\n"
  warnUser := "Warning creating admin user: "
  createdText := fun id => "Admin user 'admin' created successfully (ID: " ++ toString id ++ ")\n"
  warnProject := "Warning creating admin project: "

/-- The normal-user block, lines 76-101. -/
def normalBlock : Block where
  announce := "\nCreating normal user account..."
  spec := normalUser
  lookup := "testuser"
  existsText := fun id => "Normal user 'testuser' already exists (ID: " ++ toString id ++ ")\n"
  warnUser := "Warning creating normal user: "
  createdText := fun id =>
    "Normal user 'testuser' created successfully (ID: " ++ toString id ++ ")\n"
  warnProject := "Warning creating normal user project: "

/-- The three ways a provisioning block ends (the branch taken). -/
inductive Outcome where
  /-- `CreateUser` returned no error (lines 66-74). -/
  | created (account : User)
  /-- `CreateUser` returned an error, the lookup did not (lines 60-62). -/
  | alreadyExists (account : User)
  /-- Both returned an error; `err` is the error in the logged warning
  (lines 63-65). -/
  | failed (err : GoError)
deriving DecidableEq, Repr

/-- What a provisioning block leaves behind: the branch taken and the value
of the Go variable `admin` / `normal` at the end of the block. -/
structure Provisioned where
  outcome : Outcome
  finalVar : UserPtr
deriving DecidableEq, Repr

/-- One provisioning block of `main`. -/
def provision {σ : Type} (b : Block) (c : Collab σ) (session : Session) : Run σ Provisioned := do
  println b.announce
  let r ← callCreateUser c session b.spec
  match r.2 with
  | some err =>
    -- Check if user already exists
    let g ← callGetUserByUsername c session b.lookup
    match g.2 with
    | none =>
      let existing ← readID g.1
      printf (b.existsText existing.ID)
      pure ⟨.alreadyExists existing, g.1⟩
    | some _ =>
      logPrintf (b.warnUser ++ err.text)
      pure ⟨.failed err, r.1⟩
  | none =>
    let account ← readID r.1
    printf (b.createdText account.ID)
    -- Create initial project
    let perr ← callCreateNewProjectForUser c session r.1
    match perr with
    | some pe => logPrintf (b.warnProject ++ pe.text)
    | none => pure ()
    pure ⟨.created account, r.1⟩

/-! ## `main` (lines 25-132) -/

/-- Lines 108-131: what is printed after a successful commit. -/
def summaryLines : List String :=
  [ "",
    "=== Account Credentials ===",
    "",
    "Admin Account:",
    "  Username: admin",
    "  Password: Admin@123",
    "  Login URL: /api/v1/login",
    "",
    "Normal User Account:",
    "  Username: testuser",
    "  Password: User@123",
    "  Login URL: /api/v1/login",
    "",
    "Login Request Example:",
    "  POST /api/v1/login HTTP/1.1",
    "  Host: localhost:3456",
    "  Content-Type: application/json",
    "",
    "  \x7b",
    "    \"username\": \"admin\",",
    "    \"password\": \"Admin@123\"",
    "  \x7d",
    "",
    "=== Script completed successfully ===" ]

/-- Print the lines one `fmt.Println` after the other. -/
def printAll {σ : Type} : List String → Run σ Unit
  | [] => pure ()
  | s :: rest => do
    println s
    printAll rest

/-- Lines 103-131: the commit, its fatal branch, and the summary. -/
def commitAndSummary {σ : Type} (c : Collab σ) (session : Session) : Run σ Unit := do
  -- Commit transaction
  let cerr ← callCommit c session
  match cerr with
  | some e => logFatalf ("Failed to commit transaction: " ++ e.text)
  | none => pure ()
  printAll summaryLines

/-- Lines 76-131: the normal-user block and what follows it. -/
def afterAdmin {σ : Type} (c : Collab σ) (session : Session) : Run σ Unit := do
  let _ ← provision normalBlock c session
  commitAndSummary c session

/-- Lines 49-131: the admin block and what follows it.  The values the blocks
leave in `admin` and `normal` are not used by what follows. -/
def sessionBody {σ : Type} (c : Collab σ) (session : Session) : Run σ Unit := do
  let _ ← provision adminBlock c session
  afterAdmin c session

/-- Lines 40-131: from `engine.Sync2()` on, with `defer session.Close()`. -/
def engineBody {σ : Type} (c : Collab σ) (engine : Engine) : Run σ Unit := do
  let err ← callSync2 c engine
  match err with
  | some e => logFatalf ("Failed to sync database schema: " ++ e.text)
  | none => pure ()
  let session ← callNewSession c
  withDefer (callSessionClose c session) (sessionBody c session)

/-- The function `main`. -/
def main {σ : Type} (c : Collab σ) : Run σ Unit := do
  println "=== Vikunja Test Account Creation Script ==="
  println ""
  -- Initialize configuration
  callInitConfig c
  callInitDefaultConfig c
  -- Initialize database
  let r ← callCreateDBEngine c
  match r.2 with
  | some e => logFatalf ("Failed to create database engine: " ++ e.text)
  | none => pure ()
  withDefer (callEngineClose c r.1) (engineBody c r.1)

/-- One run of the process from the external state `s0`. -/
def runMain {σ : Type} (c : Collab σ) (s0 : σ) : Res σ Unit := main c ⟨s0, []⟩

/-! ## Vocabulary of the statements -/

/-- The collaborators honour the Go convention the script relies on:
`user.CreateUser` and `user.GetUserByUsername` return a non-nil account
whenever they return no error. -/
def NonNilOnSuccess {σ : Type} (c : Collab σ) : Prop :=
  (∀ session u s, (c.createUser session u s).1.2 = none →
      (c.createUser session u s).1.1 ≠ none) ∧
  (∀ session name s, (c.getUserByUsername session name s).1.2 = none →
      (c.getUserByUsername session name s).1.1 ≠ none)

/-- One of the three fatal failures happened in the run: `db.CreateDBEngine`,
`engine.Sync2` or `session.Commit` returned an error. -/
def FatalFailure (trace : List Event) : Prop :=
  (∃ engine e, Event.createDBEngine engine (some e) ∈ trace) ∨
  (∃ engine e, Event.sync2 engine (some e) ∈ trace) ∨
  (∃ session e, Event.commit session (some e) ∈ trace)

/-- `session.Commit` was invoked in the run and returned no error. -/
def CommitSucceeded (trace : List Event) : Prop :=
  ∃ session, Event.commit session none ∈ trace

/-- The event is a call of `session.Commit`. -/
def Event.isCommit : Event → Bool
  | .commit _ _ => true
  | _ => false

/-- The event is a call of `db.NewSession`. -/
def Event.isNewSession : Event → Bool
  | .newSession _ => true
  | _ => false

/-- The event is one of the calls made on the session: `user.CreateUser`,
`user.GetUserByUsername`, `models.CreateNewProjectForUser`, `session.Commit`,
`session.Rollback`. -/
def Event.isSessionCall : Event → Bool
  | .createUser _ _ _ _ => true
  | .getUserByUsername _ _ _ _ => true
  | .createNewProjectForUser _ _ _ => true
  | .commit _ _ => true
  | .rollback _ => true
  | _ => false

/-- The event is a call of `models.CreateNewProjectForUser`. -/
def Event.isProjectCall : Event → Bool
  | .createNewProjectForUser _ _ _ => true
  | _ => false

/-- The event is a call of `user.GetUserByUsername`. -/
def Event.isLookup : Event → Bool
  | .getUserByUsername _ _ _ _ => true
  | _ => false

/-- The event is a read of the field `ID`. -/
def Event.isRead : Event → Bool
  | .readID _ => true
  | _ => false

/-- The text of a standard-output event. -/
def Event.printed : Event → Option String
  | .stdout text => some text
  | _ => none

/-- What follows the first `session.Commit` call in a trace. -/
def afterCommit : List Event → List Event
  | [] => []
  | e :: rest => if e.isCommit then rest else afterCommit rest

/-- The text a run printed on standard output after the commit, piece by piece. -/
def printedAfterCommit (trace : List Event) : List String :=
  (afterCommit trace).filterMap Event.printed

/-- What follows the first occurrence of the event `ev` in a trace. -/
def eventsAfter (ev : Event) : List Event → List Event
  | [] => []
  | e :: rest => if e = ev then rest else eventsAfter ev rest

/-- The pointer an account call has just returned without an error. -/
def justReturned : Event → Option UserPtr
  | .createUser _ _ p none => some p
  | .getUserByUsername _ _ p none => some p
  | _ => none

/-- Every read of `ID` in the trace comes directly after a `user.CreateUser`
or `user.GetUserByUsername` call that returned no error, and reads the pointer
that call returned.  `last` is the pointer the previous event returned, if the
previous event is such a call. -/
def readsGuardedFrom (last : Option UserPtr) : List Event → Bool
  | [] => true
  | e :: rest =>
    match e with
    | .readID q => decide (last = some q) && readsGuardedFrom none rest
    | _ => readsGuardedFrom (justReturned e) rest

/-- The warning logged after `models.CreateNewProjectForUser` (lines 71-73,
98-100), none when it returned no error. -/
def projectWarning (b : Block) : Option GoError → List Event
  | some pe => [.logged (b.warnProject ++ pe.text)]
  | none => []

/-- The events of lines 26-31. -/
def introEvents : List Event :=
  [ .stdout "=== Vikunja Test Account Creation Script ===\n", .stdout "\n",
    .initConfig, .initDefaultConfig ]

/-- The events of lines 108-131. -/
def summaryEvents : List Event := summaryLines.map (fun s => Event.stdout (s ++ "\n"))

/-- The events of a provisioning block that runs to its end, by branch. -/
inductive CompletedSeg (b : Block) (session : Session) : Outcome → List Event → Prop where
  | created (a : User) (perr : Option GoError) :
      CompletedSeg b session (.created a)
        ([ .stdout (b.announce ++ "\n"),
           .createUser session b.spec (some a) none,
           .readID (some a),
           .stdout (b.createdText a.ID),
           .createNewProjectForUser session (some a) perr ] ++ projectWarning b perr)
  | alreadyExists (p : UserPtr) (err : GoError) (existing : User) :
      CompletedSeg b session (.alreadyExists existing)
        [ .stdout (b.announce ++ "\n"),
          .createUser session b.spec p (some err),
          .getUserByUsername session b.lookup (some existing) none,
          .readID (some existing),
          .stdout (b.existsText existing.ID) ]
  | failed (p : UserPtr) (err : GoError) (q : UserPtr) (gerr : GoError) :
      CompletedSeg b session (.failed err)
        [ .stdout (b.announce ++ "\n"),
          .createUser session b.spec p (some err),
          .getUserByUsername session b.lookup q (some gerr),
          .logged (b.warnUser ++ err.text) ]

/-- The events of a provisioning block that panics: a call returned a nil
account together with a nil error. -/
inductive CrashedSeg (b : Block) (session : Session) : List Event → Prop where
  | atCreated :
      CrashedSeg b session
        [ .stdout (b.announce ++ "\n"),
          .createUser session b.spec none none,
          .readID none ]
  | atExisting (p : UserPtr) (err : GoError) :
      CrashedSeg b session
        [ .stdout (b.announce ++ "\n"),
          .createUser session b.spec p (some err),
          .getUserByUsername session b.lookup none none,
          .readID none ]

/-- The six ways a run of `main` goes, with the exit status and the whole
trace of each. -/
inductive MainShape : Nat → List Event → Prop where
  | engineFailed (engine : Engine) (e : GoError) :
      MainShape 1 (introEvents ++
        [ .createDBEngine engine (some e),
          .logged ("Failed to create database engine: " ++ e.text) ])
  | syncFailed (engine : Engine) (e : GoError) :
      MainShape 1 (introEvents ++
        [ .createDBEngine engine none,
          .sync2 engine (some e),
          .logged ("Failed to sync database schema: " ++ e.text) ])
  | adminCrashed (engine : Engine) (session : Session) (seg1 : List Event)
      (h1 : CrashedSeg adminBlock session seg1) :
      MainShape 2 (introEvents ++
        [ .createDBEngine engine none, .sync2 engine none, .newSession session ] ++
        seg1 ++ [ .sessionClose session, .engineClose engine ])
  | normalCrashed (engine : Engine) (session : Session) (o1 : Outcome) (seg1 seg2 : List Event)
      (h1 : CompletedSeg adminBlock session o1 seg1)
      (h2 : CrashedSeg normalBlock session seg2) :
      MainShape 2 (introEvents ++
        [ .createDBEngine engine none, .sync2 engine none, .newSession session ] ++
        seg1 ++ seg2 ++ [ .sessionClose session, .engineClose engine ])
  | commitFailed (engine : Engine) (session : Session) (o1 o2 : Outcome)
      (seg1 seg2 : List Event) (e : GoError)
      (h1 : CompletedSeg adminBlock session o1 seg1)
      (h2 : CompletedSeg normalBlock session o2 seg2) :
      MainShape 1 (introEvents ++
        [ .createDBEngine engine none, .sync2 engine none, .newSession session ] ++
        seg1 ++ seg2 ++
        [ .commit session (some e), .logged ("Failed to commit transaction: " ++ e.text) ])
  | completed (engine : Engine) (session : Session) (o1 o2 : Outcome)
      (seg1 seg2 : List Event)
      (h1 : CompletedSeg adminBlock session o1 seg1)
      (h2 : CompletedSeg normalBlock session o2 seg2) :
      MainShape 0 (introEvents ++
        [ .createDBEngine engine none, .sync2 engine none, .newSession session ] ++
        seg1 ++ seg2 ++ [ .commit session none ] ++ summaryEvents ++
        [ .sessionClose session, .engineClose engine ])

/-- What the two deferred closes do to the way lines 49-131 end. -/
def closeBoth {σ : Type} (c : Collab σ) (engine : Engine) (session : Session) :
    Res σ Unit → Res σ Unit
  | .ok a w1 => .ok a ⟨c.engineClose engine (c.sessionClose session w1.ext),
      w1.trace ++ [.sessionClose session, .engineClose engine]⟩
  | .halted code w1 => .halted code w1
  | .crashed w1 => .crashed ⟨c.engineClose engine (c.sessionClose session w1.ext),
      w1.trace ++ [.sessionClose session, .engineClose engine]⟩

/-- The session calls that follow `user.CreateUser` in a block that runs to its
end: the lookup when `CreateUser` returned an error, the project creation
with the returned account as owner when it did not. -/
def FollowUp (session : Session) (name : String) (p : UserPtr) (e : Option GoError)
    (mid : List Event) : Prop :=
  (∃ q g, e ≠ none ∧ mid = [.getUserByUsername session name q g]) ∨
  (∃ pe, e = none ∧ mid = [.createNewProjectForUser session p pe])

/-- `db.CreateDBEngine` and `engine.Sync2` were invoked and returned no error. -/
def SetupSucceeded (trace : List Event) : Prop :=
  (∃ engine, Event.createDBEngine engine none ∈ trace) ∧
  (∃ engine, Event.sync2 engine none ∈ trace)

/-- The shape of the calls made on the session in a run: one session is
obtained; on it `user.CreateUser` for admin, its follow-up, `user.CreateUser`
for testuser, its follow-up, and one `session.Commit`, in this order and
nothing else. -/
def SessionCallsShape (trace : List Event) : Prop :=
  ∃ session, trace.filter Event.isNewSession = [.newSession session] ∧
    ∃ p1 e1 mid1 p2 e2 mid2 cerr,
      trace.filter Event.isSessionCall =
        [.createUser session adminUser p1 e1] ++ mid1 ++
        [.createUser session normalUser p2 e2] ++ mid2 ++ [.commit session cerr] ∧
      FollowUp session "admin" p1 e1 mid1 ∧ FollowUp session "testuser" p2 e2 mid2

/-- An account store that keeps usernames unique, seen through `accounts`
(the accounts held in an external state): `user.CreateUser` adds an account
with the requested username and succeeds when the username is absent, fails
without adding when it is present; `user.GetUserByUsername` finds the account
when the username is present; creating a project leaves the accounts alone. -/
structure UniqueStore {σ : Type} (c : Collab σ) (accounts : σ → List User) : Prop where
  create_absent : ∀ session spec s, (∀ a ∈ accounts s, a.Username ≠ spec.Username) →
    ∃ a, (c.createUser session spec s).1 = (some a, none) ∧ a.Username = spec.Username ∧
      accounts (c.createUser session spec s).2 = accounts s ++ [a]
  create_present : ∀ session spec s, (∃ a ∈ accounts s, a.Username = spec.Username) →
    (c.createUser session spec s).1.2 ≠ none ∧
      accounts (c.createUser session spec s).2 = accounts s
  lookup_present : ∀ session name s, (∃ a ∈ accounts s, a.Username = name) →
    ∃ a ∈ accounts s, a.Username = name ∧
      (c.getUserByUsername session name s).1 = (some a, none) ∧
      accounts (c.getUserByUsername session name s).2 = accounts s
  project_keeps : ∀ session owner s,
    accounts (c.createNewProjectForUser session owner s).2 = accounts s

/-- The events of a block in the branch Created (lines 50-56, 66-74): the
announcement, the `user.CreateUser` call that returned `a` and no error, the
read of `a.ID` for the printed line, the project creation with `a` as owner
and the warning when it returned an error. -/
def createdSeg (b : Block) (session : Session) (a : User) (perr : Option GoError) :
    List Event :=
  [ .stdout (b.announce ++ "\n"),
    .createUser session b.spec (some a) none,
    .readID (some a),
    .stdout (b.createdText a.ID),
    .createNewProjectForUser session (some a) perr ] ++ projectWarning b perr

/-- The events of a block in the branch AlreadyExists (lines 50-62): the
announcement, the `user.CreateUser` call that returned `p` and the error
`err`, the lookup that returned `existing` and no error, the read of
`existing.ID` for the printed line. -/
def existsSeg (b : Block) (session : Session) (p : UserPtr) (err : GoError)
    (existing : User) : List Event :=
  [ .stdout (b.announce ++ "\n"),
    .createUser session b.spec p (some err),
    .getUserByUsername session b.lookup (some existing) none,
    .readID (some existing),
    .stdout (b.existsText existing.ID) ]

/-- The events of a block in the branch Failed (lines 50-59, 63-65): the
announcement, the `user.CreateUser` call that returned `p` and the error
`err`, the lookup that returned `q` and the error `gerr`, the warning. -/
def failedSeg (b : Block) (session : Session) (p : UserPtr) (err : GoError)
    (q : UserPtr) (gerr : GoError) : List Event :=
  [ .stdout (b.announce ++ "\n"),
    .createUser session b.spec p (some err),
    .getUserByUsername session b.lookup q (some gerr),
    .logged (b.warnUser ++ err.text) ]

/-! ## Concrete collaborators -/

/-- Fixed results for a stateless collaborator. -/
structure Script where
  engineErr : Option GoError
  syncErr : Option GoError
  create : User → UserPtr × Option GoError
  lookup : String → UserPtr × Option GoError
  project : UserPtr → Option GoError
  commitErr : Option GoError

/-- The stateless collaborators that return the results of a script; the
engine handle is 1 and the session handle is 7. -/
def scripted (k : Script) : Collab Unit where
  initConfig := fun s => s
  initDefaultConfig := fun s => s
  createDBEngine := fun s => ((1, k.engineErr), s)
  engineClose := fun _ s => s
  sync2 := fun _ s => (k.syncErr, s)
  newSession := fun s => (7, s)
  sessionClose := fun _ s => s
  createUser := fun _ u s => (k.create u, s)
  getUserByUsername := fun _ name s => (k.lookup name, s)
  createNewProjectForUser := fun _ owner s => (k.project owner, s)
  commit := fun _ s => (k.commitErr, s)

/-- Every account is created with ID 5; nothing fails. -/
def allFresh : Script where
  engineErr := none
  syncErr := none
  create := fun u => (some { u with ID := 5 }, none)
  lookup := fun _ => (none, some ⟨"user does not exist"⟩)
  project := fun _ => none
  commitErr := none

/-- Every account is created, every project creation fails. -/
def projectFails : Script where
  engineErr := none
  syncErr := none
  create := fun u => (some { u with ID := 5 }, none)
  lookup := fun _ => (none, some ⟨"user does not exist"⟩)
  project := fun _ => some ⟨"no project"⟩
  commitErr := none

/-- Every account exists already, with ID 3. -/
def allExist : Script where
  engineErr := none
  syncErr := none
  create := fun _ => (none, some ⟨"user with this username already exists"⟩)
  lookup := fun name => (some ⟨3, name, "", ""⟩, none)
  project := fun _ => none
  commitErr := none

/-- Every creation and every lookup fails. -/
def allFail : Script where
  engineErr := none
  syncErr := none
  create := fun _ => (none, some ⟨"invalid email"⟩)
  lookup := fun _ => (none, some ⟨"user does not exist"⟩)
  project := fun _ => none
  commitErr := none

/-- `user.CreateUser` returns a nil account and a nil error. -/
def nilAccount : Script where
  engineErr := none
  syncErr := none
  create := fun _ => (none, none)
  lookup := fun _ => (none, some ⟨"user does not exist"⟩)
  project := fun _ => none
  commitErr := none

/-- The admin account is created and its project creation fails; for
testuser `user.CreateUser` returns a nil account and a nil error. -/
def nilSecondAccount : Script where
  engineErr := none
  syncErr := none
  create := fun u => if u.Username = "admin" then (some { u with ID := 5 }, none) else (none, none)
  lookup := fun _ => (none, some ⟨"user does not exist"⟩)
  project := fun _ => some ⟨"no project"⟩
  commitErr := none

/-- `engine.Sync2` fails. -/
def syncFails : Script where
  engineErr := none
  syncErr := some ⟨"no such table"⟩
  create := fun u => (some { u with ID := 5 }, none)
  lookup := fun _ => (none, some ⟨"user does not exist"⟩)
  project := fun _ => none
  commitErr := none

/-- Both accounts are created, then `session.Commit` fails. -/
def commitFails : Script where
  engineErr := none
  syncErr := none
  create := fun u => (some { u with ID := 5 }, none)
  lookup := fun _ => (none, some ⟨"user does not exist"⟩)
  project := fun _ => none
  commitErr := some ⟨"database is locked"⟩

/-- An account store over the list of accounts held: `CreateUser` refuses a
username that is taken and otherwise appends the account with the next ID,
`GetUserByUsername` returns the first account with the username. -/
def listStore : Collab (List User) where
  initConfig := fun s => s
  initDefaultConfig := fun s => s
  createDBEngine := fun s => ((1, none), s)
  engineClose := fun _ s => s
  sync2 := fun _ s => (none, s)
  newSession := fun s => (7, s)
  sessionClose := fun _ s => s
  createUser := fun _ u s =>
    if s.any (fun a => a.Username == u.Username) then
      ((none, some ⟨"user with this username already exists"⟩), s)
    else
      ((some { u with ID := s.length + 1 }, none), s ++ [{ u with ID := s.length + 1 }])
  getUserByUsername := fun _ name s =>
    match s.find? (fun a => a.Username == name) with
    | some a => ((some a, none), s)
    | none => ((none, some ⟨"user does not exist"⟩), s)
  createNewProjectForUser := fun _ _ s => (none, s)
  commit := fun _ s => (none, s)

/-! ## Evaluation lemmas -/

theorem bind_apply {σ α β : Type} (m : Run σ α) (f : α → Run σ β) (w : World σ) :
    (m >>= f) w = Run.bind m f w := rfl

theorem pure_apply {σ α : Type} (a : α) (w : World σ) :
    (pure a : Run σ α) w = .ok a w := rfl

theorem provision_created_eq {σ : Type} (b : Block) (c : Collab σ) (session : Session)
    (w : World σ) (a : User) (s1 s2 : σ) (perr : Option GoError)
    (hc : c.createUser session b.spec w.ext = ((some a, none), s1))
    (hp : c.createNewProjectForUser session (some a) s1 = (perr, s2)) :
    provision b c session w = .ok ⟨.created a, some a⟩ ⟨s2, w.trace ++
      ([ .stdout (b.announce ++ "\n"),
         .createUser session b.spec (some a) none,
         .readID (some a),
         .stdout (b.createdText a.ID),
         .createNewProjectForUser session (some a) perr ] ++ projectWarning b perr)⟩ := by
  cases perr <;>
  simp [provision, bind_apply, pure_apply, Run.bind, println, printf, logPrintf, emit,
    callCreateUser, callCreateNewProjectForUser, readID, hc, hp, projectWarning]

theorem provision_created_nil_eq {σ : Type} (b : Block) (c : Collab σ) (session : Session)
    (w : World σ) (s1 : σ)
    (hc : c.createUser session b.spec w.ext = ((none, none), s1)) :
    provision b c session w = .crashed ⟨s1, w.trace ++
      [ .stdout (b.announce ++ "\n"),
        .createUser session b.spec none none,
        .readID none ]⟩ := by
  simp [provision, bind_apply, Run.bind, println, emit, callCreateUser, readID, hc]

theorem provision_exists_eq {σ : Type} (b : Block) (c : Collab σ) (session : Session)
    (w : World σ) (p : UserPtr) (err : GoError) (existing : User) (s1 s2 : σ)
    (hc : c.createUser session b.spec w.ext = ((p, some err), s1))
    (hg : c.getUserByUsername session b.lookup s1 = ((some existing, none), s2)) :
    provision b c session w = .ok ⟨.alreadyExists existing, some existing⟩ ⟨s2, w.trace ++
      [ .stdout (b.announce ++ "\n"),
        .createUser session b.spec p (some err),
        .getUserByUsername session b.lookup (some existing) none,
        .readID (some existing),
        .stdout (b.existsText existing.ID) ]⟩ := by
  simp [provision, bind_apply, pure_apply, Run.bind, println, printf, emit,
    callCreateUser, callGetUserByUsername, readID, hc, hg]

theorem provision_exists_nil_eq {σ : Type} (b : Block) (c : Collab σ) (session : Session)
    (w : World σ) (p : UserPtr) (err : GoError) (s1 s2 : σ)
    (hc : c.createUser session b.spec w.ext = ((p, some err), s1))
    (hg : c.getUserByUsername session b.lookup s1 = ((none, none), s2)) :
    provision b c session w = .crashed ⟨s2, w.trace ++
      [ .stdout (b.announce ++ "\n"),
        .createUser session b.spec p (some err),
        .getUserByUsername session b.lookup none none,
        .readID none ]⟩ := by
  simp [provision, bind_apply, Run.bind, println, emit,
    callCreateUser, callGetUserByUsername, readID, hc, hg]

theorem provision_failed_eq {σ : Type} (b : Block) (c : Collab σ) (session : Session)
    (w : World σ) (p : UserPtr) (err : GoError) (q : UserPtr) (gerr : GoError) (s1 s2 : σ)
    (hc : c.createUser session b.spec w.ext = ((p, some err), s1))
    (hg : c.getUserByUsername session b.lookup s1 = ((q, some gerr), s2)) :
    provision b c session w = .ok ⟨.failed err, p⟩ ⟨s2, w.trace ++
      [ .stdout (b.announce ++ "\n"),
        .createUser session b.spec p (some err),
        .getUserByUsername session b.lookup q (some gerr),
        .logged (b.warnUser ++ err.text) ]⟩ := by
  simp [provision, bind_apply, pure_apply, Run.bind, println, logPrintf, emit,
    callCreateUser, callGetUserByUsername, hc, hg]

theorem provision_shape {σ : Type} (b : Block) (c : Collab σ) (session : Session)
    (w : World σ) :
    (∃ o v s seg, provision b c session w = .ok ⟨o, v⟩ ⟨s, w.trace ++ seg⟩ ∧
        CompletedSeg b session o seg) ∨
    (∃ s seg, provision b c session w = .crashed ⟨s, w.trace ++ seg⟩ ∧
        CrashedSeg b session seg ∧ ¬ NonNilOnSuccess c) := by
  rcases hc : c.createUser session b.spec w.ext with ⟨⟨p, e⟩, s1⟩
  cases e with
  | none =>
    cases p with
    | none =>
      right
      refine ⟨s1, _, provision_created_nil_eq b c session w s1 hc, .atCreated, ?_⟩
      intro hn
      exact hn.1 session b.spec w.ext (by rw [hc]) (by rw [hc])
    | some a =>
      rcases hp : c.createNewProjectForUser session (some a) s1 with ⟨perr, s2⟩
      left
      exact ⟨_, _, s2, _, provision_created_eq b c session w a s1 s2 perr hc hp,
        .created a perr⟩
  | some err =>
    rcases hg : c.getUserByUsername session b.lookup s1 with ⟨⟨q, g⟩, s2⟩
    cases g with
    | none =>
      cases q with
      | none =>
        right
        refine ⟨s2, _, provision_exists_nil_eq b c session w p err s1 s2 hc hg,
          .atExisting p err, ?_⟩
        intro hn
        exact hn.2 session b.lookup s1 (by rw [hg]) (by rw [hg])
      | some existing =>
        left
        exact ⟨_, _, s2, _, provision_exists_eq b c session w p err existing s1 s2 hc hg,
          .alreadyExists p err existing⟩
    | some gerr =>
      left
      exact ⟨_, _, s2, _, provision_failed_eq b c session w p err q gerr s1 s2 hc hg,
        .failed p err q gerr⟩

theorem printAll_eq {σ : Type} (ls : List String) (w : World σ) :
    printAll ls w = .ok () ⟨w.ext, w.trace ++ ls.map (fun s => Event.stdout (s ++ "\n"))⟩ := by
  induction ls generalizing w with
  | nil => simp [printAll, pure_apply]
  | cons s rest ih => simp [printAll, bind_apply, Run.bind, println, emit, ih]

theorem commitAndSummary_ok_eq {σ : Type} (c : Collab σ) (session : Session) (w : World σ)
    (s1 : σ) (hc : c.commit session w.ext = (none, s1)) :
    commitAndSummary c session w =
      .ok () ⟨s1, w.trace ++ ([.commit session none] ++ summaryEvents)⟩ := by
  simp [commitAndSummary, bind_apply, pure_apply, Run.bind, callCommit, hc, printAll_eq,
    summaryEvents]

theorem commitAndSummary_failed_eq {σ : Type} (c : Collab σ) (session : Session) (w : World σ)
    (e : GoError) (s1 : σ) (hc : c.commit session w.ext = (some e, s1)) :
    commitAndSummary c session w =
      .halted 1 ⟨s1, w.trace ++
        [.commit session (some e), .logged ("Failed to commit transaction: " ++ e.text)]⟩ := by
  simp [commitAndSummary, bind_apply, Run.bind, callCommit, hc, logFatalf]

theorem sessionBody_eq {σ : Type} (c : Collab σ) (session : Session) (w : World σ) :
    sessionBody c session w =
      match provision adminBlock c session w with
      | .ok _ w1 => afterAdmin c session w1
      | .halted code w1 => .halted code w1
      | .crashed w1 => .crashed w1 := by
  unfold sessionBody
  simp only [bind_apply, Run.bind]
  cases provision adminBlock c session w <;> rfl

theorem afterAdmin_eq {σ : Type} (c : Collab σ) (session : Session) (w : World σ) :
    afterAdmin c session w =
      match provision normalBlock c session w with
      | .ok _ w1 => commitAndSummary c session w1
      | .halted code w1 => .halted code w1
      | .crashed w1 => .crashed w1 := by
  unfold afterAdmin
  simp only [bind_apply, Run.bind]
  cases provision normalBlock c session w <;> rfl

/-- The four ways lines 49-131 go, from any world. -/
theorem sessionBody_shape {σ : Type} (c : Collab σ) (session : Session) (w : World σ) :
    (∃ s seg1, sessionBody c session w = .crashed ⟨s, w.trace ++ seg1⟩ ∧
        CrashedSeg adminBlock session seg1 ∧ ¬ NonNilOnSuccess c) ∨
    (∃ s o1 seg1 seg2, sessionBody c session w = .crashed ⟨s, w.trace ++ seg1 ++ seg2⟩ ∧
        CompletedSeg adminBlock session o1 seg1 ∧ CrashedSeg normalBlock session seg2 ∧
        ¬ NonNilOnSuccess c) ∨
    (∃ s o1 o2 seg1 seg2 e, sessionBody c session w = .halted 1 ⟨s, w.trace ++ seg1 ++ seg2 ++
          [.commit session (some e), .logged ("Failed to commit transaction: " ++ e.text)]⟩ ∧
        CompletedSeg adminBlock session o1 seg1 ∧ CompletedSeg normalBlock session o2 seg2) ∨
    (∃ s o1 o2 seg1 seg2, sessionBody c session w = .ok () ⟨s, w.trace ++ seg1 ++ seg2 ++
          [.commit session none] ++ summaryEvents⟩ ∧
        CompletedSeg adminBlock session o1 seg1 ∧ CompletedSeg normalBlock session o2 seg2) := by
  rw [sessionBody_eq]
  rcases provision_shape adminBlock c session w with
    ⟨o1, v1, s1, seg1, h1, hs1⟩ | ⟨s1, seg1, h1, hs1, hn⟩
  · rw [h1]
    simp only []
    rw [afterAdmin_eq]
    rcases provision_shape normalBlock c session ⟨s1, w.trace ++ seg1⟩ with
      ⟨o2, v2, s2, seg2, h2, hs2⟩ | ⟨s2, seg2, h2, hs2, hn⟩
    · rw [h2]
      simp only []
      rcases hc : c.commit session s2 with ⟨cerr, s3⟩
      cases cerr with
      | none =>
        right; right; right
        refine ⟨s3, o1, o2, seg1, seg2, ?_, hs1, hs2⟩
        rw [commitAndSummary_ok_eq c session _ s3 hc]
        simp
      | some e =>
        right; right; left
        refine ⟨s3, o1, o2, seg1, seg2, e, ?_, hs1, hs2⟩
        rw [commitAndSummary_failed_eq c session _ e s3 hc]
    · right; left
      exact ⟨s2, o1, seg1, seg2, by rw [h2], hs1, hs2, hn⟩
  · left
    exact ⟨s1, seg1, by rw [h1], hs1, hn⟩

theorem runMain_engine_failed {σ : Type} (c : Collab σ) (s0 : σ) (engine : Engine)
    (e : GoError) (sB : σ)
    (he : c.createDBEngine (c.initDefaultConfig (c.initConfig s0)) = ((engine, some e), sB)) :
    runMain c s0 = .halted 1 ⟨sB, introEvents ++
      [ .createDBEngine engine (some e),
        .logged ("Failed to create database engine: " ++ e.text) ]⟩ := by
  simp [runMain, main, bind_apply, Run.bind, println, emit, callInitConfig,
    callInitDefaultConfig, callCreateDBEngine, he, logFatalf, introEvents]

theorem runMain_sync_failed {σ : Type} (c : Collab σ) (s0 : σ) (engine : Engine)
    (e : GoError) (sB sC : σ)
    (he : c.createDBEngine (c.initDefaultConfig (c.initConfig s0)) = ((engine, none), sB))
    (hs : c.sync2 engine sB = (some e, sC)) :
    runMain c s0 = .halted 1 ⟨sC, introEvents ++
      [ .createDBEngine engine none,
        .sync2 engine (some e),
        .logged ("Failed to sync database schema: " ++ e.text) ]⟩ := by
  simp [runMain, main, engineBody, bind_apply, pure_apply, Run.bind, println, emit,
    callInitConfig, callInitDefaultConfig, callCreateDBEngine, callSync2, he, hs, logFatalf,
    introEvents, withDefer]

theorem runMain_session {σ : Type} (c : Collab σ) (s0 : σ) (engine : Engine)
    (session : Session) (sB sC sD : σ)
    (he : c.createDBEngine (c.initDefaultConfig (c.initConfig s0)) = ((engine, none), sB))
    (hs : c.sync2 engine sB = (none, sC))
    (hn : c.newSession sC = (session, sD)) :
    runMain c s0 = closeBoth c engine session (sessionBody c session ⟨sD, introEvents ++
      [ .createDBEngine engine none, .sync2 engine none, .newSession session ]⟩) := by
  simp only [runMain, main, engineBody, bind_apply, pure_apply, Run.bind, println, emit,
    callInitConfig, callInitDefaultConfig, callCreateDBEngine, callSync2, callNewSession,
    callEngineClose, callSessionClose, he, hs, hn, introEvents, withDefer, List.nil_append,
    List.append_assoc, List.cons_append, List.singleton_append, String.reduceAppend]
  generalize sessionBody c session _ = r
  cases r <;> simp [closeBoth, Res.world]

/-- Every run of `main` has one of the six shapes, and a run of collaborators
that never return a nil account without an error does not panic. -/
theorem runMain_shape {σ : Type} (c : Collab σ) (s0 : σ) :
    MainShape (runMain c s0).status (runMain c s0).world.trace ∧
    (NonNilOnSuccess c → (runMain c s0).status ≠ 2) := by
  rcases he : c.createDBEngine (c.initDefaultConfig (c.initConfig s0)) with ⟨⟨engine, eerr⟩, sB⟩
  cases eerr with
  | some e =>
    rw [runMain_engine_failed c s0 engine e sB he]
    exact ⟨.engineFailed engine e, fun _ => by simp [Res.status]⟩
  | none =>
    rcases hs : c.sync2 engine sB with ⟨serr, sC⟩
    cases serr with
    | some e =>
      rw [runMain_sync_failed c s0 engine e sB sC he hs]
      exact ⟨.syncFailed engine e, fun _ => by simp [Res.status]⟩
    | none =>
      rcases hn : c.newSession sC with ⟨session, sD⟩
      rw [runMain_session c s0 engine session sB sC sD he hs hn]
      rcases sessionBody_shape c session ⟨sD, introEvents ++
          [ .createDBEngine engine none, .sync2 engine none, .newSession session ]⟩ with
        ⟨s, seg1, h, h1, hn⟩ | ⟨s, o1, seg1, seg2, h, h1, h2, hn⟩ |
        ⟨s, o1, o2, seg1, seg2, e, h, h1, h2⟩ | ⟨s, o1, o2, seg1, seg2, h, h1, h2⟩
      · rw [h]
        exact ⟨.adminCrashed engine session seg1 h1, fun hc => absurd hc hn⟩
      · rw [h]
        exact ⟨.normalCrashed engine session o1 seg1 seg2 h1 h2, fun hc => absurd hc hn⟩
      · rw [h]
        exact ⟨.commitFailed engine session o1 o2 seg1 seg2 e h1 h2,
          fun _ => by simp [closeBoth, Res.status]⟩
      · rw [h]
        exact ⟨.completed engine session o1 o2 seg1 seg2 h1 h2,
          fun _ => by simp [closeBoth, Res.status]⟩

theorem normalUser_ne_adminUser : normalUser ≠ adminUser := by decide

theorem adminUser_ne_normalUser : adminUser ≠ normalUser := by decide

theorem mem_summaryEvents (ev : Event) :
    ev ∈ summaryEvents ↔ ∃ s ∈ summaryLines, ev = .stdout (s ++ "\n") := by
  simp [summaryEvents, eq_comm]

theorem mem_projectWarning (b : Block) (perr : Option GoError) (ev : Event) :
    ev ∈ projectWarning b perr ↔ ∃ pe, perr = some pe ∧ ev = .logged (b.warnProject ++ pe.text) := by
  cases perr <;> simp [projectWarning]

/-- In every run: a failed lookup for admin is followed by the testuser
attempt, a failed lookup for testuser by the commit. -/
theorem run_continues_after_failed {σ : Type} (c : Collab σ) (s0 : σ) :
    (∀ s q g, Event.getUserByUsername s "admin" q (some g) ∈ (runMain c s0).world.trace →
      ∃ s1 p e, Event.createUser s1 normalUser p e ∈ (runMain c s0).world.trace) ∧
    (∀ s q g, Event.getUserByUsername s "testuser" q (some g) ∈ (runMain c s0).world.trace →
      ∃ s1 ce, Event.commit s1 ce ∈ (runMain c s0).world.trace) := by
  obtain ⟨hshape, _⟩ := runMain_shape c s0
  generalize (runMain c s0).world.trace = t at hshape ⊢
  generalize (runMain c s0).status = st at hshape
  cases hshape with
  | engineFailed engine e => simp [introEvents]
  | syncFailed engine e => simp [introEvents]
  | adminCrashed engine session seg1 h1 =>
    cases h1 <;> simp [introEvents, adminBlock, normalBlock]
  | normalCrashed engine session o1 seg1 seg2 h1 h2 =>
    cases h1 <;> cases h2 <;> simp [introEvents, adminBlock, normalBlock, mem_projectWarning, mem_summaryEvents,
      normalUser_ne_adminUser, adminUser_ne_normalUser]
  | commitFailed engine session o1 o2 seg1 seg2 e h1 h2 =>
    cases h1 <;> cases h2 <;> simp [introEvents, adminBlock, normalBlock, mem_projectWarning, mem_summaryEvents,
      normalUser_ne_adminUser, adminUser_ne_normalUser]
  | completed engine session o1 o2 seg1 seg2 h1 h2 =>
    cases h1 <;> cases h2 <;> simp [introEvents, adminBlock, normalBlock, mem_projectWarning, mem_summaryEvents,
      normalUser_ne_adminUser, adminUser_ne_normalUser]

/-- In every run: the warning about the admin project is followed by the
testuser attempt, the warning about the testuser project by the commit, and
`session.Rollback` is never called. -/
theorem run_continues_after_project_warning {σ : Type} (c : Collab σ) (s0 : σ) :
    (∀ t, Event.logged (adminBlock.warnProject ++ t) ∈ (runMain c s0).world.trace →
      ∃ s1 p e, Event.createUser s1 normalUser p e ∈ (runMain c s0).world.trace) ∧
    (∀ t, Event.logged (normalBlock.warnProject ++ t) ∈ (runMain c s0).world.trace →
      ∃ s1 ce, Event.commit s1 ce ∈ (runMain c s0).world.trace) ∧
    (∀ s, Event.rollback s ∉ (runMain c s0).world.trace) := by
  obtain ⟨hshape, _⟩ := runMain_shape c s0
  generalize (runMain c s0).world.trace = t at hshape ⊢
  generalize (runMain c s0).status = st at hshape
  cases hshape with
  | engineFailed engine e => simp [introEvents, adminBlock, normalBlock, String.ext_iff]
  | syncFailed engine e => simp [introEvents, adminBlock, normalBlock, String.ext_iff]
  | adminCrashed engine session seg1 h1 =>
    cases h1 <;> simp [introEvents, adminBlock, normalBlock]
  | normalCrashed engine session o1 seg1 seg2 h1 h2 =>
    cases h1 <;> cases h2 <;>
    simp [introEvents, adminBlock, normalBlock, mem_projectWarning, mem_summaryEvents,
      normalUser_ne_adminUser, adminUser_ne_normalUser, String.ext_iff]
  | commitFailed engine session o1 o2 seg1 seg2 e h1 h2 =>
    cases h1 <;> cases h2 <;>
    simp [introEvents, adminBlock, normalBlock, mem_projectWarning, mem_summaryEvents,
      normalUser_ne_adminUser, adminUser_ne_normalUser, String.ext_iff]
  | completed engine session o1 o2 seg1 seg2 h1 h2 =>
    cases h1 <;> cases h2 <;>
    simp [introEvents, adminBlock, normalBlock, mem_projectWarning, mem_summaryEvents,
      normalUser_ne_adminUser, adminUser_ne_normalUser, String.ext_iff]

/-! ### Facts about the segments -/

theorem afterCommit_append (l1 l2 : List Event) (h : ∀ e ∈ l1, e.isCommit = false) :
    afterCommit (l1 ++ l2) = afterCommit l2 := by
  induction l1 with
  | nil => rfl
  | cons e rest ih =>
    have he : e.isCommit = false := h e (by simp)
    have hr : ∀ x ∈ rest, x.isCommit = false := fun x hx => h x (by simp [hx])
    simp [afterCommit, he, ih hr]

theorem completedSeg_no_commit {b : Block} {session : Session} {o : Outcome} {seg : List Event}
    (h : CompletedSeg b session o seg) : ∀ e ∈ seg, e.isCommit = false := by
  cases h with
  | created a perr => cases perr <;> simp [projectWarning, Event.isCommit]
  | alreadyExists p err existing => simp [Event.isCommit]
  | failed p err q gerr => simp [Event.isCommit]

theorem crashedSeg_no_commit {b : Block} {session : Session} {seg : List Event}
    (h : CrashedSeg b session seg) : ∀ e ∈ seg, e.isCommit = false := by
  cases h <;> simp [Event.isCommit]

theorem completedSeg_sessionCalls {b : Block} {session : Session} {o : Outcome}
    {seg : List Event} (h : CompletedSeg b session o seg) :
    seg.filter Event.isNewSession = [] ∧
    ∃ p e mid, seg.filter Event.isSessionCall = [.createUser session b.spec p e] ++ mid ∧
      FollowUp session b.lookup p e mid := by
  cases h with
  | created a perr =>
    refine ⟨by cases perr <;> simp [projectWarning, Event.isNewSession], some a, none,
      [.createNewProjectForUser session (some a) perr], ?_, Or.inr ⟨perr, rfl, rfl⟩⟩
    cases perr <;> simp [projectWarning, Event.isSessionCall]
  | alreadyExists p err existing =>
    exact ⟨by simp [Event.isNewSession], p, some err,
      [.getUserByUsername session b.lookup (some existing) none],
      by simp [Event.isSessionCall], Or.inl ⟨_, _, by simp, rfl⟩⟩
  | failed p err q gerr =>
    exact ⟨by simp [Event.isNewSession], p, some err,
      [.getUserByUsername session b.lookup q (some gerr)],
      by simp [Event.isSessionCall], Or.inl ⟨_, _, by simp, rfl⟩⟩

theorem completedSeg_readsGuarded {b : Block} {session : Session} {o : Outcome}
    {seg : List Event} (h : CompletedSeg b session o seg) (last : Option UserPtr)
    (rest : List Event) :
    readsGuardedFrom last (seg ++ rest) = readsGuardedFrom none rest := by
  cases h with
  | created a perr => cases perr <;> simp [projectWarning, readsGuardedFrom, justReturned]
  | alreadyExists p err existing => simp [readsGuardedFrom, justReturned]
  | failed p err q gerr => simp [readsGuardedFrom, justReturned]

theorem summaryEvents_readsGuarded (last : Option UserPtr) (rest : List Event) :
    readsGuardedFrom last (summaryEvents ++ rest) = readsGuardedFrom none rest := by
  simp [summaryEvents, summaryLines, readsGuardedFrom, justReturned]

theorem summaryEvents_no_session_call :
    summaryEvents.filter Event.isSessionCall = [] ∧
    summaryEvents.filter Event.isNewSession = [] := by
  simp [summaryEvents, summaryLines, Event.isSessionCall, Event.isNewSession]

theorem summaryEvents_printed :
    summaryEvents.filterMap Event.printed = summaryLines.map (fun s => s ++ "\n") := by
  simp [summaryEvents, summaryLines, Event.printed]

/-! ### Concrete runs -/

theorem nilAccount_trace :
    (runMain (scripted nilAccount) ()).world.trace =
      [ .stdout "=== Vikunja Test Account Creation Script ===\n", .stdout "\n",
        .initConfig, .initDefaultConfig, .createDBEngine 1 none, .sync2 1 none, .newSession 7,
        .stdout "Creating admin account...\n",
        .createUser 7 adminUser none none,
        .readID none,
        .sessionClose 7, .engineClose 1 ] := by decide

theorem syncFails_trace :
    (runMain (scripted syncFails) ()).world.trace =
      [ .stdout "=== Vikunja Test Account Creation Script ===\n", .stdout "\n",
        .initConfig, .initDefaultConfig, .createDBEngine 1 none,
        .sync2 1 (some ⟨"no such table"⟩),
        .logged "Failed to sync database schema: no such table" ] := by decide

theorem commitFails_trace :
    (runMain (scripted commitFails) ()).world.trace =
      [ .stdout "=== Vikunja Test Account Creation Script ===\n", .stdout "\n",
        .initConfig, .initDefaultConfig, .createDBEngine 1 none, .sync2 1 none, .newSession 7,
        .stdout "Creating admin account...\n",
        .createUser 7 adminUser (some ⟨5, "admin", "admin@test.local", "Admin@123"⟩) none,
        .readID (some ⟨5, "admin", "admin@test.local", "Admin@123"⟩),
        .stdout "Admin user 'admin' created successfully (ID: 5)\n",
        .createNewProjectForUser 7 (some ⟨5, "admin", "admin@test.local", "Admin@123"⟩) none,
        .stdout "\nCreating normal user account...\n",
        .createUser 7 normalUser (some ⟨5, "testuser", "testuser@test.local", "User@123"⟩) none,
        .readID (some ⟨5, "testuser", "testuser@test.local", "User@123"⟩),
        .stdout "Normal user 'testuser' created successfully (ID: 5)\n",
        .createNewProjectForUser 7 (some ⟨5, "testuser", "testuser@test.local", "User@123"⟩) none,
        .commit 7 (some ⟨"database is locked"⟩),
        .logged "Failed to commit transaction: database is locked" ] := by decide


theorem listStore_unique : UniqueStore listStore (fun s => s) where
  create_absent := by
    intro session spec s habs
    have hno : ¬ ∃ x ∈ s, x.Username = spec.Username := by
      rintro ⟨x, hx, hn⟩
      exact habs x hx hn
    exact ⟨{ spec with ID := s.length + 1 }, by simp [listStore, hno], rfl,
      by simp [listStore, hno]⟩
  create_present := by
    intro session spec s hpres
    simp [listStore, hpres]
  lookup_present := by
    intro session name s hpres
    obtain ⟨x, hx, hn⟩ := hpres
    cases hfind : s.find? (fun a => a.Username == name) with
    | none =>
      rw [List.find?_eq_none] at hfind
      exact absurd (by simpa using hn) (hfind x hx)
    | some a =>
      have hmem := List.mem_of_find?_eq_some hfind
      have hname := List.find?_some hfind
      exact ⟨a, hmem, by simpa using hname, by simp [listStore, hfind], by simp [listStore, hfind]⟩
  project_keeps := by
    intro session owner s
    rfl

theorem allFail_nonNil : NonNilOnSuccess (scripted allFail) :=
  ⟨fun _ _ _ h => by simp [scripted, allFail] at h, fun _ _ _ h => by simp [scripted, allFail] at h⟩

theorem allExist_nonNil : NonNilOnSuccess (scripted allExist) :=
  ⟨fun _ _ _ h => by simp [scripted, allExist] at h, fun _ _ _ _ => by simp [scripted, allExist]⟩

theorem allFresh_nonNil : NonNilOnSuccess (scripted allFresh) :=
  ⟨fun _ _ _ _ => by simp [scripted, allFresh], fun _ _ _ h => by simp [scripted, allFresh] at h⟩

/-! ### Facts about whole runs -/

/-- After a successful commit a run prints exactly the summary. -/
theorem printedAfterCommit_eq {σ : Type} (c : Collab σ) (s0 : σ)
    (h : CommitSucceeded (runMain c s0).world.trace) :
    printedAfterCommit (runMain c s0).world.trace = summaryLines.map (fun s => s ++ "\n") := by
  obtain ⟨hshape, -⟩ := runMain_shape c s0
  generalize (runMain c s0).world.trace = t at hshape h ⊢
  generalize (runMain c s0).status = st at hshape
  cases hshape with
  | engineFailed engine e => exact absurd h (by simp [CommitSucceeded, introEvents])
  | syncFailed engine e => exact absurd h (by simp [CommitSucceeded, introEvents])
  | adminCrashed engine session seg1 h1 =>
    refine absurd h ?_
    cases h1 <;> simp [CommitSucceeded, introEvents]
  | normalCrashed engine session o1 seg1 seg2 h1 h2 =>
    refine absurd h ?_
    cases h1 <;> cases h2 <;> simp [CommitSucceeded, introEvents, mem_projectWarning]
  | commitFailed engine session o1 o2 seg1 seg2 e h1 h2 =>
    refine absurd h ?_
    cases h1 <;> cases h2 <;> simp [CommitSucceeded, introEvents, mem_projectWarning]
  | completed engine session o1 o2 seg1 seg2 h1 h2 =>
    have hpre : ∀ e ∈ introEvents ++
        [ .createDBEngine engine none, .sync2 engine none, .newSession session ] ++
        seg1 ++ seg2, e.isCommit = false := by
      intro e he
      simp only [List.mem_append] at he
      rcases he with ((he | he) | he) | he
      · revert he; simp [introEvents]; rintro (rfl | rfl | rfl | rfl) <;> rfl
      · revert he; simp; rintro (rfl | rfl | rfl) <;> rfl
      · exact completedSeg_no_commit h1 e he
      · exact completedSeg_no_commit h2 e he
    unfold printedAfterCommit
    rw [List.append_assoc, List.append_assoc, afterCommit_append _ _ hpre]
    simp [afterCommit, Event.isCommit, summaryEvents_printed, Event.printed]

/-- In every run each read of `ID` directly follows the account call that
returned the pointer read, and that call returned no error. -/
theorem reads_guarded {σ : Type} (c : Collab σ) (s0 : σ) :
    readsGuardedFrom none (runMain c s0).world.trace = true := by
  obtain ⟨hshape, -⟩ := runMain_shape c s0
  generalize (runMain c s0).world.trace = t at hshape ⊢
  generalize (runMain c s0).status = st at hshape
  cases hshape with
  | engineFailed engine e => simp [introEvents, readsGuardedFrom, justReturned]
  | syncFailed engine e => simp [introEvents, readsGuardedFrom, justReturned]
  | adminCrashed engine session seg1 h1 =>
    cases h1 <;> simp [introEvents, readsGuardedFrom, justReturned]
  | normalCrashed engine session o1 seg1 seg2 h1 h2 =>
    simp only [List.append_assoc]
    cases h2 <;>
    simp [introEvents, readsGuardedFrom, justReturned, completedSeg_readsGuarded h1]
  | commitFailed engine session o1 o2 seg1 seg2 e h1 h2 =>
    simp only [List.append_assoc]
    simp [introEvents, readsGuardedFrom, justReturned, completedSeg_readsGuarded h1, completedSeg_readsGuarded h2]
  | completed engine session o1 o2 seg1 seg2 h1 h2 =>
    simp only [List.append_assoc]
    simp [introEvents, readsGuardedFrom, justReturned, completedSeg_readsGuarded h1, completedSeg_readsGuarded h2,
      summaryEvents_readsGuarded]

/-- A block that ends in the branch Failed has read no `ID`. -/
theorem failed_block_reads_nothing {σ : Type} (b : Block) (c : Collab σ) (session : Session)
    (w : World σ) (e : GoError) (v : UserPtr) (w1 : World σ)
    (h : provision b c session w = .ok ⟨.failed e, v⟩ w1) :
    ∃ seg, w1.trace = w.trace ++ seg ∧ ∀ ev ∈ seg, ev.isRead = false := by
  rcases provision_shape b c session w with ⟨o, v2, s, seg, heq, hseg⟩ | ⟨s, seg, heq, -, -⟩
  · rw [heq] at h
    injection h with hval hw
    injection hval with ho hv
    subst ho
    subst hw
    refine ⟨seg, rfl, ?_⟩
    cases hseg
    simp [Event.isRead]
  · rw [heq] at h
    cases h

/-- A run that exits with status 0 went through a successful setup and a
successful commit. -/
theorem completed_of_status_zero {σ : Type} (c : Collab σ) (s0 : σ)
    (h : (runMain c s0).status = 0) :
    SetupSucceeded (runMain c s0).world.trace ∧ CommitSucceeded (runMain c s0).world.trace := by
  obtain ⟨hshape, -⟩ := runMain_shape c s0
  generalize (runMain c s0).world.trace = t at hshape ⊢
  generalize (runMain c s0).status = st at hshape h
  cases hshape with
  | engineFailed engine e => cases h
  | syncFailed engine e => cases h
  | adminCrashed engine session seg1 h1 => cases h
  | normalCrashed engine session o1 seg1 seg2 h1 h2 => cases h
  | commitFailed engine session o1 o2 seg1 seg2 e h1 h2 => cases h
  | completed engine session o1 o2 seg1 seg2 h1 h2 =>
    exact ⟨⟨⟨engine, by simp⟩, ⟨engine, by simp⟩⟩, ⟨session, by simp⟩⟩


/-! ### Three runs that complete -/

theorem allFail_run :
    runMain (scripted allFail) () = .ok () ⟨(), introEvents ++
      [ .createDBEngine 1 none, .sync2 1 none, .newSession 7 ] ++
      [ .stdout (adminBlock.announce ++ "\n"),
        .createUser 7 adminUser none (some ⟨"invalid email"⟩),
        .getUserByUsername 7 "admin" none (some ⟨"user does not exist"⟩),
        .logged (adminBlock.warnUser ++ "invalid email") ] ++
      [ .stdout (normalBlock.announce ++ "\n"),
        .createUser 7 normalUser none (some ⟨"invalid email"⟩),
        .getUserByUsername 7 "testuser" none (some ⟨"user does not exist"⟩),
        .logged (normalBlock.warnUser ++ "invalid email") ] ++
      [ .commit 7 none ] ++ summaryEvents ++ [ .sessionClose 7, .engineClose 1 ]⟩ := by
  rw [runMain_session (scripted allFail) () 1 7 () () () rfl rfl rfl, sessionBody_eq,
    provision_failed_eq adminBlock (scripted allFail) 7 _ none ⟨"invalid email"⟩ none
      ⟨"user does not exist"⟩ () () rfl rfl]
  simp only []
  rw [afterAdmin_eq,
    provision_failed_eq normalBlock (scripted allFail) 7 _ none ⟨"invalid email"⟩ none
      ⟨"user does not exist"⟩ () () rfl rfl]
  simp only []
  rw [commitAndSummary_ok_eq (scripted allFail) 7 _ () rfl]
  simp [closeBoth, adminBlock, normalBlock]

theorem allFresh_run :
    runMain (scripted allFresh) () = .ok () ⟨(), introEvents ++
      [ .createDBEngine 1 none, .sync2 1 none, .newSession 7 ] ++
      [ .stdout (adminBlock.announce ++ "\n"),
        .createUser 7 adminUser (some { adminUser with ID := 5 }) none,
        .readID (some { adminUser with ID := 5 }),
        .stdout (adminBlock.createdText 5),
        .createNewProjectForUser 7 (some { adminUser with ID := 5 }) none ] ++
      [ .stdout (normalBlock.announce ++ "\n"),
        .createUser 7 normalUser (some { normalUser with ID := 5 }) none,
        .readID (some { normalUser with ID := 5 }),
        .stdout (normalBlock.createdText 5),
        .createNewProjectForUser 7 (some { normalUser with ID := 5 }) none ] ++
      [ .commit 7 none ] ++ summaryEvents ++ [ .sessionClose 7, .engineClose 1 ]⟩ := by
  rw [runMain_session (scripted allFresh) () 1 7 () () () rfl rfl rfl, sessionBody_eq,
    provision_created_eq adminBlock (scripted allFresh) 7 _ { adminUser with ID := 5 } () ()
      none rfl rfl]
  simp only []
  rw [afterAdmin_eq,
    provision_created_eq normalBlock (scripted allFresh) 7 _ { normalUser with ID := 5 } () ()
      none rfl rfl]
  simp only []
  rw [commitAndSummary_ok_eq (scripted allFresh) 7 _ () rfl]
  simp [closeBoth, adminBlock, normalBlock, projectWarning]

theorem allExist_run :
    runMain (scripted allExist) () = .ok () ⟨(), introEvents ++
      [ .createDBEngine 1 none, .sync2 1 none, .newSession 7 ] ++
      [ .stdout (adminBlock.announce ++ "\n"),
        .createUser 7 adminUser none (some ⟨"user with this username already exists"⟩),
        .getUserByUsername 7 "admin" (some ⟨3, "admin", "", ""⟩) none,
        .readID (some ⟨3, "admin", "", ""⟩),
        .stdout (adminBlock.existsText 3) ] ++
      [ .stdout (normalBlock.announce ++ "\n"),
        .createUser 7 normalUser none (some ⟨"user with this username already exists"⟩),
        .getUserByUsername 7 "testuser" (some ⟨3, "testuser", "", ""⟩) none,
        .readID (some ⟨3, "testuser", "", ""⟩),
        .stdout (normalBlock.existsText 3) ] ++
      [ .commit 7 none ] ++ summaryEvents ++ [ .sessionClose 7, .engineClose 1 ]⟩ := by
  rw [runMain_session (scripted allExist) () 1 7 () () () rfl rfl rfl, sessionBody_eq,
    provision_exists_eq adminBlock (scripted allExist) 7 _ none
      ⟨"user with this username already exists"⟩ ⟨3, "admin", "", ""⟩ () () rfl rfl]
  simp only []
  rw [afterAdmin_eq,
    provision_exists_eq normalBlock (scripted allExist) 7 _ none
      ⟨"user with this username already exists"⟩ ⟨3, "testuser", "", ""⟩ () () rfl rfl]
  simp only []
  rw [commitAndSummary_ok_eq (scripted allExist) 7 _ () rfl]
  simp [closeBoth, adminBlock, normalBlock]

theorem allFail_status : (runMain (scripted allFail) ()).status = 0 := by
  rw [allFail_run]; rfl

theorem allFresh_status : (runMain (scripted allFresh) ()).status = 0 := by
  rw [allFresh_run]; rfl

theorem allExist_status : (runMain (scripted allExist) ()).status = 0 := by
  rw [allExist_run]; rfl

theorem nilAccount_status : (runMain (scripted nilAccount) ()).status = 2 := by decide

theorem syncFails_status : (runMain (scripted syncFails) ()).status = 1 := by decide

theorem commitFails_status : (runMain (scripted commitFails) ()).status = 1 := by decide


/-! ### What follows a project warning -/

theorem eventsAfter_append_of_not_mem (ev : Event) (l1 l2 : List Event) (h : ev ∉ l1) :
    eventsAfter ev (l1 ++ l2) = eventsAfter ev l2 := by
  induction l1 with
  | nil => rfl
  | cons e rest ih =>
    have he : e ≠ ev := fun heq => h (by simp [heq])
    have hr : ev ∉ rest := fun hx => h (by simp [hx])
    simp [eventsAfter, he, ih hr]

theorem eventsAfter_subset (ev x : Event) (l : List Event) (h : x ∈ eventsAfter ev l) :
    x ∈ l := by
  induction l with
  | nil => simp [eventsAfter] at h
  | cons e rest ih =>
    by_cases he : e = ev
    · simp [eventsAfter, he] at h
      simp [h]
    · simp [eventsAfter, he] at h
      simp [ih h]

/-- In a block of `main` that ran to its end the project warning, when it is
there, is the last event. -/
theorem eventsAfter_project_warning {b : Block} {session : Session} {o : Outcome}
    {seg : List Event} (hb : b = adminBlock ∨ b = normalBlock)
    (h : CompletedSeg b session o seg) (t : String) (rest : List Event)
    (hmem : Event.logged (b.warnProject ++ t) ∈ seg) :
    eventsAfter (Event.logged (b.warnProject ++ t)) (seg ++ rest) = rest := by
  rcases hb with rfl | rfl
  · cases h with
    | created a perr =>
      cases perr with
      | none => simp [projectWarning] at hmem
      | some pe =>
        have ht : t = pe.text := by
          simpa [projectWarning, adminBlock, String.ext_iff] using hmem
        subst ht
        simp [eventsAfter, projectWarning]
    | alreadyExists p err existing => simp at hmem
    | failed p err q gerr => simp [adminBlock, String.ext_iff] at hmem
  · cases h with
    | created a perr =>
      cases perr with
      | none => simp [projectWarning] at hmem
      | some pe =>
        have ht : t = pe.text := by
          simpa [projectWarning, normalBlock, String.ext_iff] using hmem
        subst ht
        simp [eventsAfter, projectWarning]
    | alreadyExists p err existing => simp at hmem
    | failed p err q gerr => simp [normalBlock, String.ext_iff] at hmem

theorem completedSeg_has_createUser {b : Block} {session : Session} {o : Outcome}
    {seg : List Event} (h : CompletedSeg b session o seg) :
    ∃ p e, Event.createUser session b.spec p e ∈ seg := by
  cases h with
  | created a perr => exact ⟨some a, none, by simp⟩
  | alreadyExists p err existing => exact ⟨p, some err, by simp⟩
  | failed p err q gerr => exact ⟨p, some err, by simp⟩

theorem crashedSeg_has_createUser {b : Block} {session : Session} {seg : List Event}
    (h : CrashedSeg b session seg) :
    ∃ p e, Event.createUser session b.spec p e ∈ seg := by
  cases h with
  | atCreated => exact ⟨none, none, by simp⟩
  | atExisting p err => exact ⟨p, some err, by simp⟩

theorem admin_warning_not_in_normal_completed {session : Session} {o : Outcome}
    {seg : List Event} (h : CompletedSeg normalBlock session o seg) (t : String) :
    Event.logged (adminBlock.warnProject ++ t) ∉ seg := by
  cases h <;> simp [adminBlock, normalBlock, mem_projectWarning, String.ext_iff]

theorem warning_not_in_crashed {b : Block} {session : Session} {seg : List Event}
    (h : CrashedSeg b session seg) (x : String) : Event.logged x ∉ seg := by
  cases h <;> simp

theorem normal_warning_not_in_admin_completed {session : Session} {o : Outcome}
    {seg : List Event} (h : CompletedSeg adminBlock session o seg) (t : String) :
    Event.logged (normalBlock.warnProject ++ t) ∉ seg := by
  cases h <;> simp [adminBlock, normalBlock, mem_projectWarning, String.ext_iff]

theorem warning_not_in_setup (engine : Engine) (session : Session) (x : String) :
    Event.logged x ∉ introEvents ++
      [ .createDBEngine engine none, .sync2 engine none, .newSession session ] := by
  simp [introEvents]

theorem eventsAfter_in_block (ev : Event) (pre seg rest : List Event) (hpre : ev ∉ pre)
    (hseg : eventsAfter ev (seg ++ rest) = rest) :
    eventsAfter ev (pre ++ seg ++ rest) = rest := by
  rw [List.append_assoc, eventsAfter_append_of_not_mem _ _ _ hpre, hseg]

/-- In every run the warning about the admin project is followed by the
`user.CreateUser` call for testuser. -/
theorem testuser_attempt_after_admin_warning {σ : Type} (c : Collab σ) (s0 : σ) (t : String)
    (hmem : Event.logged (adminBlock.warnProject ++ t) ∈ (runMain c s0).world.trace) :
    ∃ s1 p1 e1, Event.createUser s1 normalUser p1 e1 ∈
      eventsAfter (Event.logged (adminBlock.warnProject ++ t)) (runMain c s0).world.trace := by
  obtain ⟨hshape, -⟩ := runMain_shape c s0
  generalize (runMain c s0).world.trace = tr at hshape hmem ⊢
  generalize (runMain c s0).status = st at hshape
  cases hshape with
  | engineFailed engine e =>
    exact absurd hmem (by simp [introEvents, adminBlock, String.ext_iff])
  | syncFailed engine e =>
    exact absurd hmem (by simp [introEvents, adminBlock, String.ext_iff])
  | adminCrashed engine session seg1 h1 =>
    refine absurd hmem ?_
    have := warning_not_in_crashed h1 (adminBlock.warnProject ++ t)
    simp [introEvents, this]
  | normalCrashed engine session o1 seg1 seg2 h1 h2 =>
    have hs := warning_not_in_setup engine session (adminBlock.warnProject ++ t)
    have h2n := warning_not_in_crashed h2 (adminBlock.warnProject ++ t)
    have hin : Event.logged (adminBlock.warnProject ++ t) ∈ seg1 := by
      simp only [List.mem_append] at hmem hs
      rcases hmem with ((hm | hm) | hm) | hm
      · exact absurd hm hs
      · exact hm
      · exact absurd hm h2n
      · simp at hm
    obtain ⟨p, e, hcu⟩ := crashedSeg_has_createUser h2
    refine ⟨session, p, e, ?_⟩
    have htr : introEvents ++ [ .createDBEngine engine none, .sync2 engine none, .newSession session ] ++ seg1 ++ seg2 ++ [ .sessionClose session, .engineClose engine ] =
        introEvents ++ [ .createDBEngine engine none, .sync2 engine none, .newSession session ] ++ seg1 ++ (seg2 ++ [ .sessionClose session, .engineClose engine ]) := by
      simp only [List.append_assoc]
    rw [htr, eventsAfter_in_block _ _ _ _ hs (eventsAfter_project_warning (Or.inl rfl) h1 t _ hin)]
    exact List.mem_append_left _ hcu
  | commitFailed engine session o1 o2 seg1 seg2 e h1 h2 =>
    have hs := warning_not_in_setup engine session (adminBlock.warnProject ++ t)
    have h2n := admin_warning_not_in_normal_completed h2 t
    have hin : Event.logged (adminBlock.warnProject ++ t) ∈ seg1 := by
      simp only [List.mem_append] at hmem hs
      rcases hmem with ((hm | hm) | hm) | hm
      · exact absurd hm hs
      · exact hm
      · exact absurd hm h2n
      · simp [adminBlock, String.ext_iff] at hm
    obtain ⟨p, e1, hcu⟩ := completedSeg_has_createUser h2
    refine ⟨session, p, e1, ?_⟩
    have htr : introEvents ++ [ .createDBEngine engine none, .sync2 engine none, .newSession session ] ++ seg1 ++ seg2 ++
          [ .commit session (some e), .logged ("Failed to commit transaction: " ++ e.text) ] =
        introEvents ++ [ .createDBEngine engine none, .sync2 engine none, .newSession session ] ++ seg1 ++ (seg2 ++
          [ .commit session (some e), .logged ("Failed to commit transaction: " ++ e.text) ]) := by
      simp only [List.append_assoc]
    rw [htr, eventsAfter_in_block _ _ _ _ hs (eventsAfter_project_warning (Or.inl rfl) h1 t _ hin)]
    exact List.mem_append_left _ hcu
  | completed engine session o1 o2 seg1 seg2 h1 h2 =>
    have hs := warning_not_in_setup engine session (adminBlock.warnProject ++ t)
    have h2n := admin_warning_not_in_normal_completed h2 t
    have hin : Event.logged (adminBlock.warnProject ++ t) ∈ seg1 := by
      simp only [List.mem_append] at hmem hs
      rcases hmem with ((((hm | hm) | hm) | hm) | hm) | hm
      · exact absurd hm hs
      · exact hm
      · exact absurd hm h2n
      · simp at hm
      · simp [mem_summaryEvents] at hm
      · simp at hm
    obtain ⟨p, e1, hcu⟩ := completedSeg_has_createUser h2
    refine ⟨session, p, e1, ?_⟩
    have htr : introEvents ++ [ .createDBEngine engine none, .sync2 engine none, .newSession session ] ++ seg1 ++ seg2 ++ [ .commit session none ] ++ summaryEvents ++
          [ .sessionClose session, .engineClose engine ] =
        introEvents ++ [ .createDBEngine engine none, .sync2 engine none, .newSession session ] ++ seg1 ++ (seg2 ++ ([ .commit session none ] ++ (summaryEvents ++
          [ .sessionClose session, .engineClose engine ]))) := by
      simp only [List.append_assoc]
    rw [htr, eventsAfter_in_block _ _ _ _ hs (eventsAfter_project_warning (Or.inl rfl) h1 t _ hin)]
    exact List.mem_append_left _ hcu

/-- In every run the warning about the testuser project is followed by the
`session.Commit` call. -/
theorem commit_after_testuser_warning {σ : Type} (c : Collab σ) (s0 : σ) (t : String)
    (hmem : Event.logged (normalBlock.warnProject ++ t) ∈ (runMain c s0).world.trace) :
    ∃ s1 ce, Event.commit s1 ce ∈
      eventsAfter (Event.logged (normalBlock.warnProject ++ t)) (runMain c s0).world.trace := by
  obtain ⟨hshape, -⟩ := runMain_shape c s0
  generalize (runMain c s0).world.trace = tr at hshape hmem ⊢
  generalize (runMain c s0).status = st at hshape
  cases hshape with
  | engineFailed engine e =>
    exact absurd hmem (by simp [introEvents, normalBlock, String.ext_iff])
  | syncFailed engine e =>
    exact absurd hmem (by simp [introEvents, normalBlock, String.ext_iff])
  | adminCrashed engine session seg1 h1 =>
    refine absurd hmem ?_
    have := warning_not_in_crashed h1 (normalBlock.warnProject ++ t)
    simp [introEvents, this]
  | normalCrashed engine session o1 seg1 seg2 h1 h2 =>
    refine absurd hmem ?_
    have h1n := normal_warning_not_in_admin_completed h1 t
    have h2n := warning_not_in_crashed h2 (normalBlock.warnProject ++ t)
    simp [introEvents, h1n, h2n]
  | commitFailed engine session o1 o2 seg1 seg2 e h1 h2 =>
    have hs := warning_not_in_setup engine session (normalBlock.warnProject ++ t)
    have h1n := normal_warning_not_in_admin_completed h1 t
    have hpre : Event.logged (normalBlock.warnProject ++ t) ∉ introEvents ++ [ .createDBEngine engine none, .sync2 engine none, .newSession session ] ++ seg1 := by
      intro hx
      rcases List.mem_append.mp hx with hx | hx
      · exact hs hx
      · exact h1n hx
    have hin : Event.logged (normalBlock.warnProject ++ t) ∈ seg2 := by
      rcases List.mem_append.mp hmem with hm | hm
      · rcases List.mem_append.mp hm with hm | hm
        · exact absurd hm hpre
        · exact hm
      · simp [normalBlock, String.ext_iff] at hm
    refine ⟨session, some e, ?_⟩
    rw [eventsAfter_in_block _ _ _ _ hpre (eventsAfter_project_warning (Or.inr rfl) h2 t _ hin)]
    simp
  | completed engine session o1 o2 seg1 seg2 h1 h2 =>
    have hs := warning_not_in_setup engine session (normalBlock.warnProject ++ t)
    have h1n := normal_warning_not_in_admin_completed h1 t
    have hpre : Event.logged (normalBlock.warnProject ++ t) ∉ introEvents ++ [ .createDBEngine engine none, .sync2 engine none, .newSession session ] ++ seg1 := by
      intro hx
      rcases List.mem_append.mp hx with hx | hx
      · exact hs hx
      · exact h1n hx
    have hin : Event.logged (normalBlock.warnProject ++ t) ∈ seg2 := by
      simp only [List.mem_append] at hmem hpre
      rcases hmem with (((hm | hm) | hm) | hm) | hm
      · exact absurd hm hpre
      · exact hm
      · simp at hm
      · simp [mem_summaryEvents] at hm
      · simp at hm
    refine ⟨session, none, ?_⟩
    have htr : introEvents ++ [ .createDBEngine engine none, .sync2 engine none, .newSession session ] ++ seg1 ++ seg2 ++ [ .commit session none ] ++ summaryEvents ++
          [ .sessionClose session, .engineClose engine ] =
        introEvents ++ [ .createDBEngine engine none, .sync2 engine none, .newSession session ] ++ seg1 ++ seg2 ++ ([ .commit session none ] ++ (summaryEvents ++
          [ .sessionClose session, .engineClose engine ])) := by
      simp only [List.append_assoc]
    rw [htr, eventsAfter_in_block _ _ _ _ hpre (eventsAfter_project_warning (Or.inr rfl) h2 t _ hin)]
    simp

/-- When the collaborators never return a nil account without an error, the
warning about the admin project is followed by the `session.Commit` call. -/
theorem commit_after_admin_warning {σ : Type} (c : Collab σ) (s0 : σ)
    (h : NonNilOnSuccess c) (t : String)
    (hmem : Event.logged (adminBlock.warnProject ++ t) ∈ (runMain c s0).world.trace) :
    ∃ s1 ce, Event.commit s1 ce ∈
      eventsAfter (Event.logged (adminBlock.warnProject ++ t)) (runMain c s0).world.trace := by
  obtain ⟨hshape, hnn⟩ := runMain_shape c s0
  have hst := hnn h
  generalize (runMain c s0).world.trace = tr at hshape hmem ⊢
  generalize (runMain c s0).status = st at hshape hst
  cases hshape with
  | engineFailed engine e =>
    exact absurd hmem (by simp [introEvents, adminBlock, String.ext_iff])
  | syncFailed engine e =>
    exact absurd hmem (by simp [introEvents, adminBlock, String.ext_iff])
  | adminCrashed engine session seg1 h1 => exact absurd rfl hst
  | normalCrashed engine session o1 seg1 seg2 h1 h2 => exact absurd rfl hst
  | commitFailed engine session o1 o2 seg1 seg2 e h1 h2 =>
    have hs := warning_not_in_setup engine session (adminBlock.warnProject ++ t)
    have h2n := admin_warning_not_in_normal_completed h2 t
    have hin : Event.logged (adminBlock.warnProject ++ t) ∈ seg1 := by
      simp only [List.mem_append] at hmem hs
      rcases hmem with ((hm | hm) | hm) | hm
      · exact absurd hm hs
      · exact hm
      · exact absurd hm h2n
      · simp [adminBlock, String.ext_iff] at hm
    refine ⟨session, some e, ?_⟩
    have htr : introEvents ++ [ .createDBEngine engine none, .sync2 engine none, .newSession session ] ++ seg1 ++ seg2 ++
          [ .commit session (some e), .logged ("Failed to commit transaction: " ++ e.text) ] =
        introEvents ++ [ .createDBEngine engine none, .sync2 engine none, .newSession session ] ++ seg1 ++ (seg2 ++
          [ .commit session (some e), .logged ("Failed to commit transaction: " ++ e.text) ]) := by
      simp only [List.append_assoc]
    rw [htr, eventsAfter_in_block _ _ _ _ hs (eventsAfter_project_warning (Or.inl rfl) h1 t _ hin)]
    simp
  | completed engine session o1 o2 seg1 seg2 h1 h2 =>
    have hs := warning_not_in_setup engine session (adminBlock.warnProject ++ t)
    have h2n := admin_warning_not_in_normal_completed h2 t
    have hin : Event.logged (adminBlock.warnProject ++ t) ∈ seg1 := by
      simp only [List.mem_append] at hmem hs
      rcases hmem with ((((hm | hm) | hm) | hm) | hm) | hm
      · exact absurd hm hs
      · exact hm
      · exact absurd hm h2n
      · simp at hm
      · simp [mem_summaryEvents] at hm
      · simp at hm
    refine ⟨session, none, ?_⟩
    have htr : introEvents ++ [ .createDBEngine engine none, .sync2 engine none, .newSession session ] ++ seg1 ++ seg2 ++ [ .commit session none ] ++ summaryEvents ++
          [ .sessionClose session, .engineClose engine ] =
        introEvents ++ [ .createDBEngine engine none, .sync2 engine none, .newSession session ] ++ seg1 ++ (seg2 ++ ([ .commit session none ] ++ (summaryEvents ++
          [ .sessionClose session, .engineClose engine ]))) := by
      simp only [List.append_assoc]
    rw [htr, eventsAfter_in_block _ _ _ _ hs (eventsAfter_project_warning (Or.inl rfl) h1 t _ hin)]
    simp

theorem nilSecondAccount_trace :
    (runMain (scripted nilSecondAccount) ()).world.trace =
      [ .stdout "=== Vikunja Test Account Creation Script ===\n", .stdout "\n",
        .initConfig, .initDefaultConfig, .createDBEngine 1 none, .sync2 1 none, .newSession 7,
        .stdout "Creating admin account...\n",
        .createUser 7 adminUser (some ⟨5, "admin", "admin@test.local", "Admin@123"⟩) none,
        .readID (some ⟨5, "admin", "admin@test.local", "Admin@123"⟩),
        .stdout "Admin user 'admin' created successfully (ID: 5)\n",
        .createNewProjectForUser 7 (some ⟨5, "admin", "admin@test.local", "Admin@123"⟩)
          (some ⟨"no project"⟩),
        .logged "Warning creating admin project: no project",
        .stdout "\nCreating normal user account...\n",
        .createUser 7 normalUser none none,
        .readID none,
        .sessionClose 7, .engineClose 1 ] := by decide

theorem nilSecondAccount_status : (runMain (scripted nilSecondAccount) ()).status = 2 := by
  decide

/-! ## The claims -/

/-- C1: in a provisioning block (`adminBlock`, `normalBlock`, or any other
block descriptor), whatever pointer `p` and error `err` `user.CreateUser`
returns: if `user.GetUserByUsername` for the block's username then returns
the account `existing` and no error, the block ends normally in the branch
AlreadyExists carrying exactly `existing`, the variable holds `existing`, the
line printed reports `existing.ID`, and `models.CreateNewProjectForUser` is
not invoked.  The outcome does not mention `err`. -/
theorem already_exists_when_lookup_succeeds {σ : Type} (b : Block) (c : Collab σ)
    (session : Session) (w : World σ) (p : UserPtr) (err : GoError) (existing : User)
    (s1 s2 : σ)
    (hc : c.createUser session b.spec w.ext = ((p, some err), s1))
    (hg : c.getUserByUsername session b.lookup s1 = ((some existing, none), s2)) :
    provision b c session w =
      .ok ⟨.alreadyExists existing, some existing⟩
        ⟨s2, w.trace ++ existsSeg b session p err existing⟩ ∧
    Event.stdout (b.existsText existing.ID) ∈ existsSeg b session p err existing ∧
    (existsSeg b session p err existing).countP Event.isProjectCall = 0 :=
  ⟨provision_exists_eq b c session w p err existing s1 s2 hc hg,
    by simp [existsSeg], by simp [existsSeg, Event.isProjectCall]⟩

/-- C1 at the admin block, with collaborators for which every account exists. -/
theorem already_exists_when_lookup_succeeds_witness :
    provision adminBlock (scripted allExist) 7 ⟨(), []⟩ =
      .ok ⟨.alreadyExists ⟨3, "admin", "", ""⟩, some ⟨3, "admin", "", ""⟩⟩
        ⟨(), [] ++ existsSeg adminBlock 7 none ⟨"user with this username already exists"⟩
          ⟨3, "admin", "", ""⟩⟩ ∧
    Event.stdout (adminBlock.existsText 3) ∈
      existsSeg adminBlock 7 none ⟨"user with this username already exists"⟩
        ⟨3, "admin", "", ""⟩ ∧
    (existsSeg adminBlock 7 none ⟨"user with this username already exists"⟩
        ⟨3, "admin", "", ""⟩).countP Event.isProjectCall = 0 :=
  already_exists_when_lookup_succeeds adminBlock (scripted allExist) 7 ⟨(), []⟩ none
    ⟨"user with this username already exists"⟩ ⟨3, "admin", "", ""⟩ () () rfl rfl

/-- C2: in a provisioning block, if `user.CreateUser` returns the account `a`
and no error, the block ends normally in the branch Created carrying `a`,
`models.CreateNewProjectForUser` is invoked exactly once, with `a` as owner,
and `user.GetUserByUsername` is not invoked. -/
theorem created_when_create_succeeds {σ : Type} (b : Block) (c : Collab σ)
    (session : Session) (w : World σ) (a : User) (s1 s2 : σ) (perr : Option GoError)
    (hc : c.createUser session b.spec w.ext = ((some a, none), s1))
    (hp : c.createNewProjectForUser session (some a) s1 = (perr, s2)) :
    provision b c session w =
      .ok ⟨.created a, some a⟩ ⟨s2, w.trace ++ createdSeg b session a perr⟩ ∧
    (createdSeg b session a perr).filter Event.isProjectCall =
      [.createNewProjectForUser session (some a) perr] ∧
    (createdSeg b session a perr).countP Event.isLookup = 0 := by
  refine ⟨provision_created_eq b c session w a s1 s2 perr hc hp, ?_, ?_⟩ <;>
  cases perr <;> simp [createdSeg, projectWarning, Event.isProjectCall, Event.isLookup]

/-- C2 at the admin block, with collaborators that create every account. -/
theorem created_when_create_succeeds_witness :
    provision adminBlock (scripted allFresh) 7 ⟨(), []⟩ =
      .ok ⟨.created ⟨5, "admin", "admin@test.local", "Admin@123"⟩,
          some ⟨5, "admin", "admin@test.local", "Admin@123"⟩⟩
        ⟨(), [] ++ createdSeg adminBlock 7 ⟨5, "admin", "admin@test.local", "Admin@123"⟩ none⟩ ∧
    (createdSeg adminBlock 7 ⟨5, "admin", "admin@test.local", "Admin@123"⟩ none).filter
        Event.isProjectCall =
      [.createNewProjectForUser 7 (some ⟨5, "admin", "admin@test.local", "Admin@123"⟩) none] ∧
    (createdSeg adminBlock 7 ⟨5, "admin", "admin@test.local", "Admin@123"⟩ none).countP
        Event.isLookup = 0 :=
  created_when_create_succeeds adminBlock (scripted allFresh) 7 ⟨(), []⟩
    ⟨5, "admin", "admin@test.local", "Admin@123"⟩ () () none rfl rfl

/-- C3: in a provisioning block, if `user.CreateUser` returns the error `err`
and `user.GetUserByUsername` then returns the error `gerr`, the block ends
normally in the branch Failed; the one line it logs is the warning with the
text of `err`, the error of `CreateUser`, not of `gerr`; no project creation
is invoked; the variable keeps the pointer `p` that `CreateUser` returned.
The block returns, so the process is not ended by this outcome: in every run
of `main` a failed lookup for admin is followed by the `CreateUser` call for
testuser, and a failed lookup for testuser by the `session.Commit` call. -/
theorem failed_when_create_and_lookup_fail {σ : Type} (b : Block) (c : Collab σ)
    (session : Session) (w : World σ) (p : UserPtr) (err : GoError) (q : UserPtr)
    (gerr : GoError) (s1 s2 : σ)
    (hc : c.createUser session b.spec w.ext = ((p, some err), s1))
    (hg : c.getUserByUsername session b.lookup s1 = ((q, some gerr), s2)) :
    provision b c session w =
      .ok ⟨.failed err, p⟩ ⟨s2, w.trace ++ failedSeg b session p err q gerr⟩ ∧
    (∀ t, Event.logged t ∈ failedSeg b session p err q gerr ↔ t = b.warnUser ++ err.text) ∧
    (failedSeg b session p err q gerr).countP Event.isProjectCall = 0 ∧
    (∀ s0,
      (∀ s q1 g, Event.getUserByUsername s "admin" q1 (some g) ∈ (runMain c s0).world.trace →
        ∃ s1 p1 e1, Event.createUser s1 normalUser p1 e1 ∈ (runMain c s0).world.trace) ∧
      (∀ s q1 g, Event.getUserByUsername s "testuser" q1 (some g) ∈
          (runMain c s0).world.trace →
        ∃ s1 ce, Event.commit s1 ce ∈ (runMain c s0).world.trace)) :=
  ⟨provision_failed_eq b c session w p err q gerr s1 s2 hc hg,
    by simp [failedSeg], by simp [failedSeg, Event.isProjectCall],
    fun s0 => run_continues_after_failed c s0⟩

/-- C3 at the normal-user block, with collaborators for which every creation
and every lookup fails. -/
theorem failed_when_create_and_lookup_fail_witness :
    provision normalBlock (scripted allFail) 7 ⟨(), []⟩ =
      .ok ⟨.failed ⟨"invalid email"⟩, none⟩
        ⟨(), [] ++ failedSeg normalBlock 7 none ⟨"invalid email"⟩ none
          ⟨"user does not exist"⟩⟩ ∧
    (∀ t, Event.logged t ∈ failedSeg normalBlock 7 none ⟨"invalid email"⟩ none
        ⟨"user does not exist"⟩ ↔ t = normalBlock.warnUser ++ "invalid email") ∧
    (failedSeg normalBlock 7 none ⟨"invalid email"⟩ none
        ⟨"user does not exist"⟩).countP Event.isProjectCall = 0 ∧
    (∀ s0,
      (∀ s q1 g, Event.getUserByUsername s "admin" q1 (some g) ∈
          (runMain (scripted allFail) s0).world.trace →
        ∃ s1 p1 e1, Event.createUser s1 normalUser p1 e1 ∈
          (runMain (scripted allFail) s0).world.trace) ∧
      (∀ s q1 g, Event.getUserByUsername s "testuser" q1 (some g) ∈
          (runMain (scripted allFail) s0).world.trace →
        ∃ s1 ce, Event.commit s1 ce ∈ (runMain (scripted allFail) s0).world.trace)) :=
  failed_when_create_and_lookup_fail normalBlock (scripted allFail) 7 ⟨(), []⟩ none
    ⟨"invalid email"⟩ none ⟨"user does not exist"⟩ () () rfl rfl

/-- C4, amended: in a provisioning block, if `user.CreateUser` returns the
account `a` and no error and `models.CreateNewProjectForUser` then returns the
error `pe`, the block still ends normally in the branch Created carrying `a`;
the one line it logs is the warning with the text of `pe`; `session.Rollback`
is not invoked, neither in the block nor anywhere in a run of `main`.  The run
goes on with the next step: in every run of `main`, after the warning about
the admin project comes the `user.CreateUser` call for testuser, and after the
warning about the testuser project comes the `session.Commit` call.  After
the warning about the admin project the `session.Commit` call comes as well
when `user.CreateUser` and `user.GetUserByUsername` return a non-nil account
whenever they return no error. -/
theorem created_when_project_fails {σ : Type} (b : Block) (c : Collab σ)
    (session : Session) (w : World σ) (a : User) (pe : GoError) (s1 s2 : σ)
    (hc : c.createUser session b.spec w.ext = ((some a, none), s1))
    (hp : c.createNewProjectForUser session (some a) s1 = (some pe, s2)) :
    provision b c session w =
      .ok ⟨.created a, some a⟩ ⟨s2, w.trace ++ createdSeg b session a (some pe)⟩ ∧
    (∀ t, Event.logged t ∈ createdSeg b session a (some pe) ↔ t = b.warnProject ++ pe.text) ∧
    (∀ s, Event.rollback s ∉ createdSeg b session a (some pe)) ∧
    (∀ s0 s, Event.rollback s ∉ (runMain c s0).world.trace) ∧
    (∀ s0 t, Event.logged (adminBlock.warnProject ++ t) ∈ (runMain c s0).world.trace →
      ∃ s1 p1 e1, Event.createUser s1 normalUser p1 e1 ∈
        eventsAfter (Event.logged (adminBlock.warnProject ++ t)) (runMain c s0).world.trace) ∧
    (∀ s0 t, Event.logged (normalBlock.warnProject ++ t) ∈ (runMain c s0).world.trace →
      ∃ s1 ce, Event.commit s1 ce ∈
        eventsAfter (Event.logged (normalBlock.warnProject ++ t)) (runMain c s0).world.trace) ∧
    (NonNilOnSuccess c →
      ∀ s0 t, Event.logged (adminBlock.warnProject ++ t) ∈ (runMain c s0).world.trace →
        ∃ s1 ce, Event.commit s1 ce ∈
          eventsAfter (Event.logged (adminBlock.warnProject ++ t))
            (runMain c s0).world.trace) :=
  ⟨provision_created_eq b c session w a s1 s2 (some pe) hc hp,
    by simp [createdSeg, projectWarning], by simp [createdSeg, projectWarning],
    fun s0 => (run_continues_after_project_warning c s0).2.2,
    fun s0 t hmem => testuser_attempt_after_admin_warning c s0 t hmem,
    fun s0 t hmem => commit_after_testuser_warning c s0 t hmem,
    fun hnn s0 t hmem => commit_after_admin_warning c s0 hnn t hmem⟩

/-- C4, amended, at the admin block, with collaborators that create every
account and fail every project creation. -/
theorem created_when_project_fails_witness :
    provision adminBlock (scripted projectFails) 7 ⟨(), []⟩ =
      .ok ⟨.created ⟨5, "admin", "admin@test.local", "Admin@123"⟩,
          some ⟨5, "admin", "admin@test.local", "Admin@123"⟩⟩
        ⟨(), [] ++ createdSeg adminBlock 7 ⟨5, "admin", "admin@test.local", "Admin@123"⟩
          (some ⟨"no project"⟩)⟩ ∧
    (∀ t, Event.logged t ∈ createdSeg adminBlock 7
        ⟨5, "admin", "admin@test.local", "Admin@123"⟩ (some ⟨"no project"⟩) ↔
      t = adminBlock.warnProject ++ "no project") ∧
    (∀ s, Event.rollback s ∉ createdSeg adminBlock 7
        ⟨5, "admin", "admin@test.local", "Admin@123"⟩ (some ⟨"no project"⟩)) ∧
    (∀ s0 s, Event.rollback s ∉ (runMain (scripted projectFails) s0).world.trace) ∧
    (∀ s0 t, Event.logged (adminBlock.warnProject ++ t) ∈
        (runMain (scripted projectFails) s0).world.trace →
      ∃ s1 p1 e1, Event.createUser s1 normalUser p1 e1 ∈
        eventsAfter (Event.logged (adminBlock.warnProject ++ t))
          (runMain (scripted projectFails) s0).world.trace) ∧
    (∀ s0 t, Event.logged (normalBlock.warnProject ++ t) ∈
        (runMain (scripted projectFails) s0).world.trace →
      ∃ s1 ce, Event.commit s1 ce ∈
        eventsAfter (Event.logged (normalBlock.warnProject ++ t))
          (runMain (scripted projectFails) s0).world.trace) ∧
    (NonNilOnSuccess (scripted projectFails) →
      ∀ s0 t, Event.logged (adminBlock.warnProject ++ t) ∈
          (runMain (scripted projectFails) s0).world.trace →
        ∃ s1 ce, Event.commit s1 ce ∈
          eventsAfter (Event.logged (adminBlock.warnProject ++ t))
            (runMain (scripted projectFails) s0).world.trace) :=
  created_when_project_fails adminBlock (scripted projectFails) 7 ⟨(), []⟩
    ⟨5, "admin", "admin@test.local", "Admin@123"⟩ ⟨"no project"⟩ () () rfl rfl

/-- C4 as stated fails: when `user.CreateUser` returns an account for admin,
the creation of its project fails, and `user.CreateUser` returns a nil
account and a nil error for testuser, the admin block ends in Created and
logs the warning, the run goes on to the testuser attempt, panics at line 94
and ends with status 2: `session.Commit` is never invoked. -/
theorem project_failure_then_nil_account :
    (scripted nilSecondAccount).createUser 7 adminBlock.spec () =
      ((some ⟨5, "admin", "admin@test.local", "Admin@123"⟩, none), ()) ∧
    (scripted nilSecondAccount).createNewProjectForUser 7
      (some ⟨5, "admin", "admin@test.local", "Admin@123"⟩) () = (some ⟨"no project"⟩, ()) ∧
    Event.logged (adminBlock.warnProject ++ "no project") ∈
      (runMain (scripted nilSecondAccount) ()).world.trace ∧
    Event.createUser 7 normalUser none none ∈
      (runMain (scripted nilSecondAccount) ()).world.trace ∧
    (∀ s e, Event.commit s e ∉ (runMain (scripted nilSecondAccount) ()).world.trace) ∧
    (runMain (scripted nilSecondAccount) ()).status = 2 := by
  refine ⟨rfl, rfl, ?_, ?_, ?_, nilSecondAccount_status⟩
  · rw [nilSecondAccount_trace]; simp [adminBlock]
  · rw [nilSecondAccount_trace]; simp
  · rw [nilSecondAccount_trace]; simp

/-- C5, amended: when `user.CreateUser` and `user.GetUserByUsername` return a
non-nil account whenever they return no error, a run exits with a non-zero
status exactly when `db.CreateDBEngine`, `engine.Sync2` or `session.Commit`
returned an error, and the status is 0 or 1; so a run with none of the three
failures exits with status 0, whatever the provisioning blocks and the project
creations did. -/
theorem exit_status_iff_fatal_failure {σ : Type} (c : Collab σ) (s0 : σ)
    (h : NonNilOnSuccess c) :
    ((runMain c s0).status ≠ 0 ↔ FatalFailure (runMain c s0).world.trace) ∧
    ((runMain c s0).status = 0 ∨ (runMain c s0).status = 1) := by
  obtain ⟨hshape, hnn⟩ := runMain_shape c s0
  have hst := hnn h
  generalize (runMain c s0).world.trace = t at hshape ⊢
  generalize (runMain c s0).status = st at hshape hst ⊢
  cases hshape with
  | engineFailed engine e => simp [FatalFailure, introEvents]
  | syncFailed engine e => simp [FatalFailure, introEvents]
  | adminCrashed engine session seg1 h1 => exact absurd rfl hst
  | normalCrashed engine session o1 seg1 seg2 h1 h2 => exact absurd rfl hst
  | commitFailed engine session o1 o2 seg1 seg2 e h1 h2 =>
    exact ⟨⟨fun _ => Or.inr (Or.inr ⟨session, e, by simp⟩), fun _ => by decide⟩, Or.inr rfl⟩
  | completed engine session o1 o2 seg1 seg2 h1 h2 =>
    cases h1 <;> cases h2 <;>
    simp [FatalFailure, introEvents, mem_projectWarning, mem_summaryEvents]

/-- C5, amended, at the run in which both provisioning blocks end in Failed. -/
theorem exit_status_iff_fatal_failure_witness :
    ((runMain (scripted allFail) ()).status ≠ 0 ↔
      FatalFailure (runMain (scripted allFail) ()).world.trace) ∧
    ((runMain (scripted allFail) ()).status = 0 ∨ (runMain (scripted allFail) ()).status = 1) :=
  exit_status_iff_fatal_failure (scripted allFail) () allFail_nonNil

/-- C5 as stated fails: when `user.CreateUser` returns a nil account and a nil
error for admin, none of `db.CreateDBEngine`, `engine.Sync2`, `session.Commit`
fails (the commit is not reached), and the run ends in a nil-pointer panic at
line 67, with status 2. -/
theorem exit_status_nil_account :
    (runMain (scripted nilAccount) ()).status = 2 ∧
    ¬ ((runMain (scripted nilAccount) ()).status ≠ 0 ↔
        FatalFailure (runMain (scripted nilAccount) ()).world.trace) := by
  refine ⟨nilAccount_status, ?_⟩
  rw [nilAccount_trace, nilAccount_status]
  simp [FatalFailure]

/-- C6 fails on the code: `log.Fatalf` ends the process through `os.Exit`, which
does not run deferred calls.  In the run where `engine.Sync2` fails the engine
was created and `engine.Close` is never invoked; in the run where
`session.Commit` fails the session was obtained and neither `session.Close`
nor `engine.Close` is invoked.  In the run that returns normally both are
invoked. -/
theorem closes_skipped_on_fatal :
    ((runMain (scripted syncFails) ()).status = 1 ∧
      Event.createDBEngine 1 none ∈ (runMain (scripted syncFails) ()).world.trace ∧
      ∀ e, Event.engineClose e ∉ (runMain (scripted syncFails) ()).world.trace) ∧
    ((runMain (scripted commitFails) ()).status = 1 ∧
      Event.createDBEngine 1 none ∈ (runMain (scripted commitFails) ()).world.trace ∧
      Event.newSession 7 ∈ (runMain (scripted commitFails) ()).world.trace ∧
      (∀ s, Event.sessionClose s ∉ (runMain (scripted commitFails) ()).world.trace) ∧
      ∀ e, Event.engineClose e ∉ (runMain (scripted commitFails) ()).world.trace) ∧
    ((runMain (scripted allFresh) ()).status = 0 ∧
      Event.sessionClose 7 ∈ (runMain (scripted allFresh) ()).world.trace ∧
      Event.engineClose 1 ∈ (runMain (scripted allFresh) ()).world.trace) := by
  refine ⟨⟨syncFails_status, ?_, ?_⟩, ⟨commitFails_status, ?_, ?_, ?_, ?_⟩,
    ⟨allFresh_status, ?_, ?_⟩⟩
  · rw [syncFails_trace]; simp
  · rw [syncFails_trace]; simp
  · rw [commitFails_trace]; simp
  · rw [commitFails_trace]; simp
  · rw [commitFails_trace]; simp
  · rw [commitFails_trace]; simp
  · rw [allFresh_run]; simp [Res.world]
  · rw [allFresh_run]; simp [Res.world]

/-- C7, amended: when `user.CreateUser` and `user.GetUserByUsername` return a
non-nil account whenever they return no error, every run in which engine
creation and schema sync succeed obtains one session and makes on it exactly
these calls, in this order: `user.CreateUser` for admin, then the lookup for
"admin" if that returned an error and else the project creation for the
account returned, `user.CreateUser` for testuser, then its lookup or its
project creation in the same way, and one `session.Commit`.  No call is made
twice, and the testuser attempt and the commit happen whatever the admin
attempt returned. -/
theorem session_calls_shape {σ : Type} (c : Collab σ) (s0 : σ)
    (h : NonNilOnSuccess c) (hsetup : SetupSucceeded (runMain c s0).world.trace) :
    SessionCallsShape (runMain c s0).world.trace := by
  obtain ⟨hshape, hnn⟩ := runMain_shape c s0
  have hst := hnn h
  generalize (runMain c s0).world.trace = t at hshape hsetup ⊢
  generalize (runMain c s0).status = st at hshape hst
  cases hshape with
  | engineFailed engine e =>
    exact absurd hsetup (by simp [SetupSucceeded, introEvents])
  | syncFailed engine e =>
    exact absurd hsetup (by simp [SetupSucceeded, introEvents])
  | adminCrashed engine session seg1 h1 => exact absurd rfl hst
  | normalCrashed engine session o1 seg1 seg2 h1 h2 => exact absurd rfl hst
  | commitFailed engine session o1 o2 seg1 seg2 e h1 h2 =>
    obtain ⟨hn1, p1, e1, mid1, hc1, hf1⟩ := completedSeg_sessionCalls h1
    obtain ⟨hn2, p2, e2, mid2, hc2, hf2⟩ := completedSeg_sessionCalls h2
    refine ⟨session, ?_, p1, e1, mid1, p2, e2, mid2, some e, ?_, hf1, hf2⟩
    · simp [List.filter_append, hn1, hn2, introEvents, Event.isNewSession]
    · simp [List.filter_append, hc1, hc2, introEvents, Event.isSessionCall, adminBlock,
        normalBlock]
  | completed engine session o1 o2 seg1 seg2 h1 h2 =>
    obtain ⟨hn1, p1, e1, mid1, hc1, hf1⟩ := completedSeg_sessionCalls h1
    obtain ⟨hn2, p2, e2, mid2, hc2, hf2⟩ := completedSeg_sessionCalls h2
    refine ⟨session, ?_, p1, e1, mid1, p2, e2, mid2, none, ?_, hf1, hf2⟩
    · simp [List.filter_append, hn1, hn2, introEvents, Event.isNewSession,
        summaryEvents_no_session_call.2]
    · simp [List.filter_append, hc1, hc2, introEvents, Event.isSessionCall, adminBlock,
        normalBlock, summaryEvents_no_session_call.1]

/-- C7, amended, at the run in which both accounts exist already. -/
theorem session_calls_shape_witness :
    SessionCallsShape (runMain (scripted allExist) ()).world.trace :=
  session_calls_shape (scripted allExist) () allExist_nonNil
    (completed_of_status_zero (scripted allExist) () allExist_status).1

/-- C7 as stated fails: when `user.CreateUser` returns a nil account and a nil
error for admin, engine creation and schema sync succeed, and the run panics
at line 67: `user.CreateUser` is never invoked for testuser and
`session.Commit` is never invoked. -/
theorem session_calls_nil_account :
    SetupSucceeded (runMain (scripted nilAccount) ()).world.trace ∧
    (∀ s p e, Event.createUser s normalUser p e ∉
      (runMain (scripted nilAccount) ()).world.trace) ∧
    (∀ s e, Event.commit s e ∉ (runMain (scripted nilAccount) ()).world.trace) ∧
    ¬ SessionCallsShape (runMain (scripted nilAccount) ()).world.trace := by
  rw [nilAccount_trace]
  refine ⟨⟨⟨1, by simp⟩, ⟨1, by simp⟩⟩, by simp [normalUser_ne_adminUser], by simp, ?_⟩
  rintro ⟨session, -, p1, e1, mid1, p2, e2, mid2, cerr, hcalls, -, -⟩
  have hlen := congrArg List.length hcalls
  simp [List.filter, Event.isSessionCall] at hlen

/-- C8: over an account store that keeps usernames unique (`UniqueStore`), for
every block whose lookup name is the username of its account literal and whose
username is absent from the store: running the block twice in sequence ends
first in Created with a new account `a` and then in AlreadyExists with the
same `a` (the second run does not end in Failed); afterwards the store holds
the accounts it held before and `a`, so exactly one account with that
username; `models.CreateNewProjectForUser` is invoked once by the first run
and not at all by the second. -/
theorem provision_twice {σ : Type} (b : Block) (c : Collab σ) (accounts : σ → List User)
    (hstore : UniqueStore c accounts) (hb : b.lookup = b.spec.Username)
    (session : Session) (w : World σ)
    (habsent : ∀ a ∈ accounts w.ext, a.Username ≠ b.spec.Username) :
    ∃ a w1 w2 seg1 seg2,
      provision b c session w = .ok ⟨.created a, some a⟩ w1 ∧
      provision b c session w1 = .ok ⟨.alreadyExists a, some a⟩ w2 ∧
      w1.trace = w.trace ++ seg1 ∧ w2.trace = w1.trace ++ seg2 ∧
      seg1.countP Event.isProjectCall = 1 ∧ seg2.countP Event.isProjectCall = 0 ∧
      a.Username = b.spec.Username ∧
      accounts w2.ext = accounts w.ext ++ [a] ∧
      (accounts w2.ext).filter (fun x => decide (x.Username = b.spec.Username)) = [a] := by
  -- first run
  obtain ⟨a, hc1, hname, hacc1⟩ := hstore.create_absent session b.spec w.ext habsent
  rcases hcreate : c.createUser session b.spec w.ext with ⟨r1, s1⟩
  rw [hcreate] at hc1 hacc1
  simp only at hc1 hacc1
  subst hc1
  rcases hproj : c.createNewProjectForUser session (some a) s1 with ⟨perr, s2⟩
  have hacc2 : accounts s2 = accounts w.ext ++ [a] := by
    have := hstore.project_keeps session (some a) s1
    rw [hproj] at this
    simpa [hacc1] using this
  have hfirst := provision_created_eq b c session w a s1 s2 perr hcreate hproj
  -- second run
  have hpresent : ∃ x ∈ accounts s2, x.Username = b.spec.Username :=
    ⟨a, by simp [hacc2], hname⟩
  obtain ⟨herr, hacc3⟩ := hstore.create_present session b.spec s2 hpresent
  rcases hcreate2 : c.createUser session b.spec s2 with ⟨⟨p, e⟩, s3⟩
  rw [hcreate2] at herr hacc3
  simp only at herr hacc3
  obtain ⟨err, rfl⟩ := Option.ne_none_iff_exists'.mp herr
  have hpresent3 : ∃ x ∈ accounts s3, x.Username = b.lookup := by
    rw [hacc3, hb]; exact hpresent
  obtain ⟨a2, hmem, hname2, hget, hacc4⟩ := hstore.lookup_present session b.lookup s3 hpresent3
  rcases hlookup : c.getUserByUsername session b.lookup s3 with ⟨r2, s4⟩
  rw [hlookup] at hget hacc4
  simp only at hget hacc4
  subst hget
  have ha2 : a2 = a := by
    rw [hacc3, hacc2, List.mem_append] at hmem
    rcases hmem with hmem | hmem
    · exact absurd (hb ▸ hname2) (habsent a2 hmem)
    · simpa using hmem
  subst ha2
  have hsecond := provision_exists_eq b c session
    ⟨s2, w.trace ++ ([ .stdout (b.announce ++ "\n"),
         .createUser session b.spec (some a2) none,
         .readID (some a2),
         .stdout (b.createdText a2.ID),
         .createNewProjectForUser session (some a2) perr ] ++ projectWarning b perr)⟩
    p err a2 s3 s4 hcreate2 hlookup
  have hfinal : accounts s4 = accounts w.ext ++ [a2] := by rw [hacc4, hacc3, hacc2]
  refine ⟨a2, _, _, _, _, hfirst, hsecond, rfl, rfl, ?_, ?_, hname, hfinal, ?_⟩
  · cases perr <;> simp [projectWarning, Event.isProjectCall]
  · simp [Event.isProjectCall]
  · rw [hfinal, List.filter_append]
    have h0 : (accounts w.ext).filter (fun x => decide (x.Username = b.spec.Username)) = [] := by
      rw [List.filter_eq_nil_iff]
      intro x hx
      simpa using habsent x hx
    simp [h0, hname]

/-- C8 at the admin block over the list store, starting from the empty store. -/
theorem provision_twice_witness :
    ∃ a w1 w2 seg1 seg2,
      provision adminBlock listStore 7 ⟨[], []⟩ = .ok ⟨.created a, some a⟩ w1 ∧
      provision adminBlock listStore 7 w1 = .ok ⟨.alreadyExists a, some a⟩ w2 ∧
      w1.trace = [] ++ seg1 ∧ w2.trace = w1.trace ++ seg2 ∧
      seg1.countP Event.isProjectCall = 1 ∧ seg2.countP Event.isProjectCall = 0 ∧
      a.Username = adminBlock.spec.Username ∧
      w2.ext = [] ++ [a] ∧
      w2.ext.filter (fun x => decide (x.Username = adminBlock.spec.Username)) = [a] :=
  provision_twice adminBlock listStore (fun s => s) listStore_unique rfl 7 ⟨[], []⟩
    (by simp)

/-- C9: for any two runs in which `session.Commit` succeeds, over any
collaborators and from any states, the text printed after the commit is the
same: it is the summary of lines 108-131 (the credentials of admin and
testuser, the login example, the line "=== Script completed successfully ===")
whatever `CreateUser`, `GetUserByUsername` and `CreateNewProjectForUser`
returned. -/
theorem summary_independent_of_outcomes {σ τ : Type} (c1 : Collab σ) (s1 : σ)
    (c2 : Collab τ) (s2 : τ)
    (h1 : CommitSucceeded (runMain c1 s1).world.trace)
    (h2 : CommitSucceeded (runMain c2 s2).world.trace) :
    printedAfterCommit (runMain c1 s1).world.trace =
      printedAfterCommit (runMain c2 s2).world.trace ∧
    printedAfterCommit (runMain c1 s1).world.trace = summaryLines.map (fun s => s ++ "\n") ∧
    "  Password: Admin@123\n" ∈ printedAfterCommit (runMain c1 s1).world.trace ∧
    "  Password: User@123\n" ∈ printedAfterCommit (runMain c1 s1).world.trace ∧
    "=== Script completed successfully ===\n" ∈
      printedAfterCommit (runMain c1 s1).world.trace := by
  have e1 := printedAfterCommit_eq c1 s1 h1
  have e2 := printedAfterCommit_eq c2 s2 h2
  refine ⟨by rw [e1, e2], e1, ?_, ?_, ?_⟩ <;>
  · rw [e1]; simp [summaryLines]

/-- C9 at the run in which both provisioning blocks end in Failed and the run
in which both accounts are created. -/
theorem summary_independent_of_outcomes_witness :
    printedAfterCommit (runMain (scripted allFail) ()).world.trace =
      printedAfterCommit (runMain (scripted allFresh) ()).world.trace ∧
    printedAfterCommit (runMain (scripted allFail) ()).world.trace =
      summaryLines.map (fun s => s ++ "\n") ∧
    "  Password: Admin@123\n" ∈ printedAfterCommit (runMain (scripted allFail) ()).world.trace ∧
    "  Password: User@123\n" ∈ printedAfterCommit (runMain (scripted allFail) ()).world.trace ∧
    "=== Script completed successfully ===\n" ∈
      printedAfterCommit (runMain (scripted allFail) ()).world.trace :=
  summary_independent_of_outcomes (scripted allFail) () (scripted allFresh) ()
    (completed_of_status_zero (scripted allFail) () allFail_status).2
    (completed_of_status_zero (scripted allFresh) () allFresh_status).2

/-- C10: when `user.CreateUser` and `user.GetUserByUsername` return a non-nil
account whenever they return no error, no run of `main` panics; every read of
`ID` goes through a non-nil pointer; every read of `ID` comes directly after
the `CreateUser` or `GetUserByUsername` call that returned the pointer read,
and that call returned no error; `models.CreateNewProjectForUser` is only
passed a non-nil account; and a block that ends in Failed has read no `ID`,
so the pointer it leaves in its variable, which may be nil, is not read in
the block, and not after it, every later read being of a pointer returned by
a later call. -/
theorem no_nil_dereference {σ : Type} (c : Collab σ) (s0 : σ) (h : NonNilOnSuccess c) :
    (runMain c s0).status ≠ 2 ∧
    (∀ p, Event.readID p ∈ (runMain c s0).world.trace → p ≠ none) ∧
    readsGuardedFrom none (runMain c s0).world.trace = true ∧
    (∀ s owner e, Event.createNewProjectForUser s owner e ∈ (runMain c s0).world.trace →
      owner ≠ none) ∧
    (∀ b session w e v w1, provision b c session w = .ok ⟨.failed e, v⟩ w1 →
      ∃ seg, w1.trace = w.trace ++ seg ∧ ∀ ev ∈ seg, ev.isRead = false) := by
  refine ⟨(runMain_shape c s0).2 h, ?_, reads_guarded c s0, ?_,
    fun b session w e v w1 hb => failed_block_reads_nothing b c session w e v w1 hb⟩
  all_goals
    obtain ⟨hshape, hnn⟩ := runMain_shape c s0
    have hst := hnn h
    generalize (runMain c s0).world.trace = t at hshape ⊢
    generalize (runMain c s0).status = st at hshape hst
    cases hshape with
    | engineFailed engine e => simp [introEvents]
    | syncFailed engine e => simp [introEvents]
    | adminCrashed engine session seg1 h1 => exact absurd rfl hst
    | normalCrashed engine session o1 seg1 seg2 h1 h2 => exact absurd rfl hst
    | commitFailed engine session o1 o2 seg1 seg2 e h1 h2 =>
      cases h1 <;> cases h2 <;>
      simp [introEvents, mem_projectWarning, mem_summaryEvents] <;>
      (try (intro s owner e hx; rcases hx with ⟨-, rfl, -⟩ | ⟨-, rfl, -⟩ <;> simp)) <;>
      (try (intro s owner e _ hx; simp [hx]))
    | completed engine session o1 o2 seg1 seg2 h1 h2 =>
      cases h1 <;> cases h2 <;>
      simp [introEvents, mem_projectWarning, mem_summaryEvents] <;>
      (try (intro s owner e hx; rcases hx with ⟨-, rfl, -⟩ | ⟨-, rfl, -⟩ <;> simp)) <;>
      (try (intro s owner e _ hx; simp [hx]))

/-- C10 at the run in which both accounts exist already. -/
theorem no_nil_dereference_witness :
    (runMain (scripted allExist) ()).status ≠ 2 ∧
    (∀ p, Event.readID p ∈ (runMain (scripted allExist) ()).world.trace → p ≠ none) ∧
    readsGuardedFrom none (runMain (scripted allExist) ()).world.trace = true ∧
    (∀ s owner e, Event.createNewProjectForUser s owner e ∈
        (runMain (scripted allExist) ()).world.trace → owner ≠ none) ∧
    (∀ b session w e v w1, provision b (scripted allExist) session w = .ok ⟨.failed e, v⟩ w1 →
      ∃ seg, w1.trace = w.trace ++ seg ∧ ∀ ev ∈ seg, ev.isRead = false) :=
  no_nil_dereference (scripted allExist) () allExist_nonNil

end CreateTestAccounts
